import Mathlib

/-!
Verification of the Stripe billing webhook reconciliation engine
(backend/airweave/billing/webhook_handler.py).

The handlers in webhook_handler.py are embedded as pure functions over an
explicit single-organization database state.  Timestamps are Nat seconds
(datetime.utcfromtimestamp ts becomes ts; timedelta days d becomes d * 86400).
The helper modules airweave.billing.plan_logic and
airweave.billing.transactions are not part of the provided sources; their
operations are modelled from the specification (each such definition carries a
doc comment starting with Modelled from the spec).  The Stripe client is
modelled as an environment record supplying the data and outcomes of the
processor-side calls made by the handlers.
-/

/-- Billing plans (schemas.organization_billing.BillingPlan). -/
inductive BillingPlan
  | developer
  | pro
  | team
  | enterprise
deriving DecidableEq, Repr

/-- Billing statuses mirrored from the processor subscription status
(schemas.organization_billing.BillingStatus); only the values exercised by the
handlers are listed. -/
inductive BillingStatus
  | active
  | pastDue
  | trialing
  | canceled
deriving DecidableEq, Repr

/-- Ledger entry statuses (schemas.billing_period.BillingPeriodStatus). -/
inductive BillingPeriodStatus
  | active
  | grace
  | completed
  | endedUnpaid
deriving DecidableEq, Repr

/-- Period transitions (schemas.billing_period.BillingTransition). -/
inductive BillingTransition
  | initialSignup
  | renewal
  | upgrade
  | downgrade
deriving DecidableEq, Repr

/-- The Organization Billing Record (one mutable row per organization). -/
structure OrganizationBilling where
  organization_id : String
  stripe_customer_id : String
  stripe_subscription_id : Option String
  billing_plan : BillingPlan
  billing_status : BillingStatus
  current_period_start : Option Nat
  current_period_end : Option Nat
  cancel_at_period_end : Bool
  pending_plan_change : Option BillingPlan
  pending_plan_change_at : Option Nat
  grace_period_ends_at : Option Nat
  payment_method_added : Bool
  payment_method_id : Option String
  has_yearly_prepay : Bool
  yearly_prepay_started_at : Option Nat
  yearly_prepay_expires_at : Option Nat
  yearly_prepay_amount_cents : Option Nat
  yearly_prepay_coupon_id : Option String
  yearly_prepay_payment_intent_id : Option String
  last_payment_status : Option String
  last_payment_at : Option Nat
deriving DecidableEq, Repr

/-- A Billing Period ledger entry. -/
structure BillingPeriod where
  id : Nat
  plan : BillingPlan
  period_start : Nat
  period_end : Nat
  status : BillingPeriodStatus
  transition : BillingTransition
  previous_period_id : Option Nat
  stripe_subscription_id : Option String
  stripe_invoice_id : Option String
  amount_cents : Option Nat
  currency : Option String
  paid_at : Option Nat
deriving DecidableEq, Repr

/-- Database state for one organization: its billing record plus the period
ledger.  Period ids are assigned from next_period_id, strictly increasing. -/
structure BillingDb where
  billing : OrganizationBilling
  periods : List BillingPeriod
  next_period_id : Nat
deriving DecidableEq, Repr

/-! ## Plan inference engine (airweave.billing.plan_logic) -/

/-- Input context for plan inference (plan_logic.PlanInferenceContext). -/
structure PlanInferenceContext where
  current_plan : BillingPlan
  pending_plan : Option BillingPlan
  is_renewal : Bool
  items_changed : Bool
  subscription_items : List String
deriving DecidableEq, Repr

/-- Result of plan inference. -/
structure InferredPlan where
  plan : BillingPlan
  changed : Bool
  should_clear_pending : Bool
deriving DecidableEq, Repr

/-- Map the price identifiers on the subscription to a plan through the static
price-to-plan table; the first identifier with a mapping wins. -/
def map_items_to_plan (items : List String) (mapping : List (String × BillingPlan)) :
    Option BillingPlan :=
  items.findSome? (fun pid => (mapping.find? (fun m => m.fst = pid)).map (fun m => m.snd))

/-- Rules 2 and 3 of the inference engine: if line items changed, map the new
price identifiers to a plan; changed is true only if it differs from current. -/
def infer_from_items (c : PlanInferenceContext) (mapping : List (String × BillingPlan)) :
    InferredPlan :=
  if c.items_changed then
    match map_items_to_plan c.subscription_items mapping with
    | some p => if p ≠ c.current_plan then ⟨p, true, false⟩ else ⟨c.current_plan, false, false⟩
    | none => ⟨c.current_plan, false, false⟩
  else ⟨c.current_plan, false, false⟩

/-- Modelled from the spec: plan_logic.infer_plan_from_webhook is not part of
the provided sources.  Rules in priority order: (1) if a pending plan is
supplied (the caller gates it on due-ness) and this is a renewal, apply it with
changed and should_clear_pending true; (2) else if line items changed, map the
price identifiers through the static table, changed iff different from current;
(3) else the current plan, unchanged. -/
def infer_plan_from_webhook (c : PlanInferenceContext) (mapping : List (String × BillingPlan)) :
    InferredPlan :=
  match c.pending_plan with
  | some p => if c.is_renewal then ⟨p, true, true⟩ else infer_from_items c mapping
  | none => infer_from_items c mapping

/-- Ordering rank of plans, Developer lowest. -/
def planRank : BillingPlan → Nat
  | .developer => 0
  | .pro => 1
  | .team => 2
  | .enterprise => 3

/-- Direction of a plan change. -/
inductive PlanChange
  | upgrade
  | downgrade
  | same
deriving DecidableEq, Repr

/-- Modelled from the spec: plan_logic.compare_plans is not part of the
provided sources; compares the rank of the old and new plans. -/
def compare_plans (old new_ : BillingPlan) : PlanChange :=
  if planRank old < planRank new_ then .upgrade
  else if planRank new_ < planRank old then .downgrade
  else .same

/-- Modelled from the spec: plan_logic.determine_period_transition is not part
of the provided sources; the transition of a new period is derived from the
old and new plans, with InitialSignup for the first period. -/
def determine_period_transition (old new_ : BillingPlan) (is_first : Bool) : BillingTransition :=
  if is_first then .initialSignup
  else
    match compare_plans old new_ with
    | .upgrade => .upgrade
    | .downgrade => .downgrade
    | .same => .renewal

/-- Kind of subscription-updated event for period-creation purposes. -/
inductive PeriodEventKind
  | renewal
  | immediate_change
deriving DecidableEq, Repr

/-- Modelled from the spec: plan_logic.should_create_new_period is not part of
the provided sources.  A renewal always opens a new period (one ledger entry
per billing cycle); an immediate change opens one only when the plan actually
changed. -/
def should_create_new_period (kind : PeriodEventKind) (plan_changed : Bool)
    (_change : PlanChange) : Bool :=
  match kind with
  | .renewal => true
  | .immediate_change => plan_changed

/-! ## Billing period ledger (airweave.billing.transactions) -/

/-- A period still open (counts against the at-most-one Active/Grace invariant). -/
def is_open_status : BillingPeriodStatus → Bool
  | .active => true
  | .grace => true
  | .completed => false
  | .endedUnpaid => false

/-- Modelled from the spec: transactions.get_current_billing_period is not part
of the provided sources.  Returns the period whose half-open range
[period_start, period_end) contains at_time, preferring the most recently
created (largest id) period when ranges overlap. -/
def get_current_billing_period (periods : List BillingPeriod) (at_time : Nat) :
    Option BillingPeriod :=
  (periods.filter (fun p => decide (p.period_start ≤ at_time) && decide (at_time < p.period_end))).foldl
    (fun acc p =>
      match acc with
      | none => some p
      | some q => if q.id ≤ p.id then some p else some q)
    none

/-- Modelled from the spec: transactions.complete_billing_period is not part of
the provided sources.  Transitions the named period to the given terminal
status; idempotent no-op if the period is already terminal. -/
def complete_billing_period (db : BillingDb) (pid : Nat) (ts : BillingPeriodStatus) : BillingDb :=
  { db with
    periods := db.periods.map
      (fun p => if p.id = pid ∧ is_open_status p.status then { p with status := ts } else p) }

/-- Supersede any still-open period: a newly created period replaces it, so the
open period is closed as Completed (preserves the at-most-one-open invariant). -/
def supersede_open (periods : List BillingPeriod) : List BillingPeriod :=
  periods.map (fun p => if is_open_status p.status then { p with status := .completed } else p)

/-- The idempotence test of the ledger: the period a create call would produce
is already present (same plan, bounds, status and subscription reference; the
auto-assigned id and the linkage back-reference are bookkeeping, not part of
the target state). -/
def period_target_exists (periods : List BillingPeriod) (plan : BillingPlan) (ps pe : Nat)
    (sub_id : Option String) (status : BillingPeriodStatus) : Bool :=
  periods.any (fun q =>
    decide (q.plan = plan ∧ q.period_start = ps ∧ q.period_end = pe ∧ q.status = status ∧
      q.stripe_subscription_id = sub_id))

/-- Modelled from the spec: transactions.create_billing_period is not part of
the provided sources.  Per section 5 the operation checks current state before
acting and is an idempotent no-op when the period it would create already
exists; otherwise it appends a new period with the next id, superseding any
still-open period so that at most one Active/Grace period exists. -/
def create_billing_period (db : BillingDb) (plan : BillingPlan) (ps pe : Nat)
    (transition : BillingTransition) (sub_id : Option String) (prev : Option Nat)
    (status : BillingPeriodStatus) : BillingDb :=
  { db with
    periods :=
      if period_target_exists db.periods plan ps pe sub_id status then db.periods
      else
        supersede_open db.periods ++
          [{ id := db.next_period_id, plan := plan, period_start := ps, period_end := pe,
             status := status, transition := transition, previous_period_id := prev,
             stripe_subscription_id := sub_id, stripe_invoice_id := none, amount_cents := none,
             currency := none, paid_at := none }],
    next_period_id :=
      if period_target_exists db.periods plan ps pe sub_id status then db.next_period_id
      else db.next_period_id + 1 }

/-! ## Stripe client environment -/

/-- The subscription object returned by the processor from
update_subscription or create_subscription. -/
structure SubResult where
  id : String
  current_period_start : Nat
deriving DecidableEq, Repr

/-- Environment standing for the Stripe client singleton: static price data,
payment-method detection results, and the outcome of the processor-side
update_subscription call made on a renewal plan switch (none means success,
some msg means the call raised an error with message msg).  The client is
modelled as always configured. -/
structure StripeEnv where
  price_mapping : List (String × BillingPlan)
  price_for_plan : BillingPlan → Option String
  update_outcome : Option String
  detect_pm : Bool × Option String
  sub_result : SubResult
  sub_detect_pm : Bool × Option String

/-- Substring test (on character lists) used to classify processor errors. -/
def chars_have_sub (hay needle : List Char) : Bool :=
  (List.range (hay.length + 1)).any (fun i => ((hay.drop i).take needle.length) = needle)

/-- The recognized sandbox-clock failure: the lowercased error text mentions
both "test clock" and "advancement" (webhook_handler.py line 306). -/
def is_test_clock_error (msg : String) : Bool :=
  chars_have_sub (msg.data.map Char.toLower) "test clock".data &&
  chars_have_sub (msg.data.map Char.toLower) "advancement".data

/-! ## Events -/

/-- Payload of a customer.subscription.updated event.  is_renewal records
whether current_period_end is in previous_attributes, items_changed whether
items is; items are the price identifiers extracted from the subscription. -/
structure SubscriptionEvent where
  id : String
  status : BillingStatus
  current_period_start : Nat
  current_period_end : Nat
  cancel_at_period_end : Bool
  is_renewal : Bool
  items_changed : Bool
  items : List String
deriving DecidableEq, Repr

/-- Payload of a customer.subscription.deleted event. -/
structure DeletedEvent where
  id : String
  status : Option String
deriving DecidableEq, Repr

/-- Payload of an invoice.payment_succeeded or invoice.payment_failed event. -/
structure InvoiceEvent where
  subscription : Option String
  customer : String
  billing_reason : Option String
  invoice_id : Option String
  amount_paid : Option Nat
  currency : Option String
  paid_at_ts : Option Nat
deriving DecidableEq, Repr

/-- Payload of a customer.subscription.created event. -/
structure CreatedEvent where
  id : String
  metadata_org : Option String
  metadata_plan : Option String
  current_period_start : Nat
  current_period_end : Nat
deriving DecidableEq, Repr

/-- Payload of a checkout.session.completed event in payment mode. -/
structure CheckoutSession where
  metadata_type : Option String
  metadata_org : Option String
  metadata_plan : Option String
  metadata_coupon : Option String
  payment_intent : Option String
deriving DecidableEq, Repr

/-- BillingPlan(plan_str): the string-to-plan conversion of the Python enum. -/
def BillingPlan.ofString : String → Option BillingPlan
  | "developer" => some .developer
  | "pro" => some .pro
  | "team" => some .team
  | "enterprise" => some .enterprise
  | _ => none

/-! ## Handlers (BillingWebhookProcessor) -/

/-- The effective-date gate of webhook_handler.py lines 252-259: the pending
plan is considered only when the reference time (the subscription current
period start reported by the processor) has reached pending_plan_change_at. -/
def pending_to_apply_gate (billing : OrganizationBilling) (ref_time : Nat) : Option BillingPlan :=
  match billing.pending_plan_change, billing.pending_plan_change_at with
  | some p, some t => if t ≤ ref_time then some p else none
  | _, _ => none

/-- The inference input built by _handle_subscription_updated (lines 261-269). -/
def updated_inference (env : StripeEnv) (ev : SubscriptionEvent)
    (billing : OrganizationBilling) : InferredPlan :=
  infer_plan_from_webhook
    { current_plan := billing.billing_plan
      pending_plan := pending_to_apply_gate billing ev.current_period_start
      is_renewal := ev.is_renewal
      items_changed := ev.items_changed
      subscription_items := ev.items }
    env.price_mapping

/-- Guard of the renewal plan-switch block (line 278): renewal, inference
reported a change, and the pending change is to be cleared. -/
def switch_attempted (ev : SubscriptionEvent) (inferred : InferredPlan) : Bool :=
  ev.is_renewal && inferred.changed && inferred.should_clear_pending

/-- The database-writing tail of _handle_subscription_updated (lines 314-421):
period creation and the billing-record update, parameterized by whether the
processor-side price switch was (treated as) successful.  The record update
mirrors the OrganizationBillingUpdate partial-update semantics: only the
fields the handler assigns change. -/
def updated_db_write (env : StripeEnv) (ev : SubscriptionEvent) (now : Nat)
    (db : BillingDb) (inferred : InferredPlan) (stripe_success : Bool) : BillingDb :=
  let billing := db.billing
  let final_plan_for_period :=
    if switch_attempted ev inferred && !stripe_success then billing.billing_plan
    else inferred.plan
  let change_type := compare_plans billing.billing_plan final_plan_for_period
  let db1 :=
    if should_create_new_period
        (if ev.is_renewal then .renewal else .immediate_change)
        (decide (final_plan_for_period ≠ billing.billing_plan)) change_type then
      let at_dt := if ev.is_renewal then ev.current_period_start else now
      let current_period := get_current_billing_period db.periods at_dt
      create_billing_period db final_plan_for_period
        (if ev.is_renewal then ev.current_period_start else now)
        ev.current_period_end
        (determine_period_transition billing.billing_plan final_plan_for_period false)
        (some ev.id)
        (current_period.map (fun p => p.id))
        .active
    else db
  let b1 : OrganizationBilling :=
    { db1.billing with
      billing_plan := final_plan_for_period
      billing_status := ev.status
      cancel_at_period_end := ev.cancel_at_period_end
      current_period_start := some ev.current_period_start
      current_period_end := some ev.current_period_end
      payment_method_added := env.detect_pm.fst }
  let b2 :=
    match env.detect_pm.snd with
    | some pid => { b1 with payment_method_id := some pid }
    | none => b1
  let b3 :=
    if ev.is_renewal || (ev.items_changed && inferred.changed) then
      { b2 with billing_plan := inferred.plan }
    else b2
  let b4 :=
    if ev.is_renewal && inferred.should_clear_pending then
      { b3 with pending_plan_change := none, pending_plan_change_at := none }
    else b3
  let b5 :=
    if billing.has_yearly_prepay then
      match billing.yearly_prepay_expires_at with
      | some e =>
        if e ≤ ev.current_period_start then
          { b4 with
            has_yearly_prepay := false
            yearly_prepay_expires_at := none
            yearly_prepay_started_at := none
            yearly_prepay_amount_cents := none
            yearly_prepay_coupon_id := none
            yearly_prepay_payment_intent_id := none }
        else b4
      | none => b4
    else b4
  { db1 with billing := b5 }

/-- _handle_subscription_updated (lines 207-423).  The record is looked up by
subscription id; a renewal carrying a due pending change first pushes the
price switch to the processor, and a failure other than the recognized
sandbox-clock error aborts with no local write (lines 302-312). -/
def handle_subscription_updated (env : StripeEnv) (ev : SubscriptionEvent) (now : Nat)
    (db : BillingDb) : BillingDb :=
  if db.billing.stripe_subscription_id = some ev.id then
    if switch_attempted ev (updated_inference env ev db.billing) then
      match env.price_for_plan (updated_inference env ev db.billing).plan with
      | some _ =>
        match env.update_outcome with
        | none => updated_db_write env ev now db (updated_inference env ev db.billing) true
        | some msg =>
          if is_test_clock_error msg then
            updated_db_write env ev now db (updated_inference env ev db.billing) true
          else db
      | none => updated_db_write env ev now db (updated_inference env ev db.billing) false
    else updated_db_write env ev now db (updated_inference env ev db.billing) false
  else db

/-- _handle_subscription_deleted (lines 425-495). -/
def handle_subscription_deleted (ev : DeletedEvent) (now : Nat) (db : BillingDb) : BillingDb :=
  if db.billing.stripe_subscription_id = some ev.id then
    if ev.status = some "canceled" then
      let db1 :=
        match get_current_billing_period db.periods now with
        | some p => complete_billing_period db p.id .completed
        | none => db
      let new_plan := db1.billing.pending_plan_change.getD db1.billing.billing_plan
      { db1 with
        billing :=
          { db1.billing with
            billing_status := .active
            billing_plan := new_plan
            stripe_subscription_id := none
            cancel_at_period_end := false
            pending_plan_change := none
            pending_plan_change_at := none } }
    else { db with billing := { db.billing with cancel_at_period_end := true } }
  else db

/-- The invoice stamp written on the current Active/Grace period by
_handle_payment_succeeded (lines 543-569). -/
def stamp_invoice (p : BillingPeriod) (ev : InvoiceEvent) (now : Nat) : BillingPeriod :=
  { p with
    stripe_invoice_id := ev.invoice_id
    amount_cents := ev.amount_paid
    currency := ev.currency
    paid_at := some (ev.paid_at_ts.getD now) }

/-- _handle_payment_succeeded (lines 497-574). -/
def handle_payment_succeeded (ev : InvoiceEvent) (now : Nat) (db : BillingDb) : BillingDb :=
  if ev.subscription.isNone then db
  else if db.billing.stripe_customer_id = ev.customer then
    let b1 :=
      { db.billing with last_payment_status := some "succeeded", last_payment_at := some now }
    let b2 := if db.billing.billing_status = .pastDue then { b1 with billing_status := .active } else b1
    let db1 := { db with billing := b2 }
    match get_current_billing_period db1.periods now with
    | some p =>
      if is_open_status p.status then
        { db1 with
          periods := db1.periods.map (fun q => if q.id = p.id then stamp_invoice q ev now else q) }
      else db1
    | none => db1
  else db

/-- _handle_payment_failed (lines 576-653). -/
def handle_payment_failed (ev : InvoiceEvent) (now : Nat) (db : BillingDb) : BillingDb :=
  if ev.subscription.isNone then db
  else if db.billing.stripe_customer_id = ev.customer then
    if ev.billing_reason = some "subscription_cycle" then
      match get_current_billing_period db.periods now with
      | some p =>
        let db1 := complete_billing_period db p.id .endedUnpaid
        let grace_end := now + 7 * 86400
        let db2 := create_billing_period db1 p.plan p.period_end grace_end .renewal
          db.billing.stripe_subscription_id (some p.id) .grace
        { db2 with
          billing :=
            { db2.billing with
              last_payment_status := some "failed"
              billing_status := .pastDue
              grace_period_ends_at := some grace_end } }
      | none =>
        { db with
          billing :=
            { db.billing with last_payment_status := some "failed", billing_status := .pastDue } }
    else
      { db with
        billing :=
          { db.billing with last_payment_status := some "failed", billing_status := .pastDue } }
  else db

/-- _handle_subscription_created (lines 121-205). -/
def handle_subscription_created (env : StripeEnv) (ev : CreatedEvent) (db : BillingDb) :
    BillingDb :=
  match ev.metadata_org with
  | none => db
  | some oid =>
    if oid = db.billing.organization_id then
      match BillingPlan.ofString (ev.metadata_plan.getD "pro") with
      | none => db
      | some plan =>
        let db1 :=
          { db with
            billing :=
              { db.billing with
                stripe_subscription_id := some ev.id
                billing_plan := plan
                billing_status := .active
                current_period_start := some ev.current_period_start
                current_period_end := some ev.current_period_end
                grace_period_ends_at := none
                payment_method_added := env.detect_pm.fst
                payment_method_id := env.detect_pm.snd } }
        create_billing_period db1 plan ev.current_period_start ev.current_period_end
          .initialSignup (some ev.id) none .active
    else db

/-- _finalize_yearly_prepay (lines 705-914).  The balance credit, coupon
application and payment-method attachment are processor-side best-effort calls
with no local effect; the local writes are the billing-record update (lines
877-887) and record_yearly_prepay_finalized (lines 888-895), the latter
modelled from the spec as stamping the prepay bookkeeping fields. -/
def finalize_yearly_prepay (env : StripeEnv) (session : CheckoutSession) (now : Nat)
    (db : BillingDb) : BillingDb :=
  if session.metadata_type = some "yearly_prepay" then
    match session.metadata_org, session.metadata_plan, session.metadata_coupon,
        session.payment_intent with
    | some oid, some plan_str, some coupon, some pi_id =>
      if oid = db.billing.organization_id then
        match BillingPlan.ofString plan_str with
        | none => db
        | some plan =>
          match env.price_for_plan plan with
          | none => db
          | some _ =>
            let sub := env.sub_result
            let expires_at := sub.current_period_start + 365 * 86400
            { db with
              billing :=
                { db.billing with
                  stripe_subscription_id := some sub.id
                  billing_plan := plan
                  payment_method_added := true
                  payment_method_id := env.sub_detect_pm.snd
                  has_yearly_prepay := true
                  yearly_prepay_started_at := some now
                  yearly_prepay_coupon_id := some coupon
                  yearly_prepay_payment_intent_id := some pi_id
                  yearly_prepay_expires_at := some expires_at } }
      else db
    | _, _, _, _ => db
  else db

/-- C1: on a renewal whose due pending plan switch fails processor-side with a
non-sandbox-clock error, the handler performs no local write. -/
theorem c1_renewal_switch_failure_no_local_write
    (env : StripeEnv) (ev : SubscriptionEvent) (now : Nat) (db : BillingDb)
    (msg pid : String)
    (hlk : db.billing.stripe_subscription_id = some ev.id)
    (hchg : (updated_inference env ev db.billing).changed = true)
    (hclr : (updated_inference env ev db.billing).should_clear_pending = true)
    (hren : ev.is_renewal = true)
    (hprice : env.price_for_plan (updated_inference env ev db.billing).plan = some pid)
    (hfail : env.update_outcome = some msg)
    (hnc : is_test_clock_error msg = false) :
    handle_subscription_updated env ev now db = db := by
  unfold handle_subscription_updated
  rw [hlk, if_pos rfl]
  have hsw : switch_attempted ev (updated_inference env ev db.billing) = true := by
    simp [switch_attempted, hren, hchg, hclr]
  rw [hsw, if_pos rfl, hprice, hfail]
  simp only [hnc, Bool.false_eq_true, if_false]

/-- Concrete billing record used by the C1 witness. -/
def c1_billing : OrganizationBilling :=
  { organization_id := "org1"
    stripe_customer_id := "cus1"
    stripe_subscription_id := some "sub1"
    billing_plan := .pro
    billing_status := .active
    current_period_start := some 0
    current_period_end := some 100
    cancel_at_period_end := false
    pending_plan_change := some .team
    pending_plan_change_at := some 50
    grace_period_ends_at := none
    payment_method_added := true
    payment_method_id := some "pm1"
    has_yearly_prepay := false
    yearly_prepay_started_at := none
    yearly_prepay_expires_at := none
    yearly_prepay_amount_cents := none
    yearly_prepay_coupon_id := none
    yearly_prepay_payment_intent_id := none
    last_payment_status := none
    last_payment_at := none }

/-- Concrete database used by the C1 witness. -/
def c1_db : BillingDb :=
  { billing := c1_billing
    periods := [{ id := 0, plan := .pro, period_start := 0, period_end := 100,
                  status := .active, transition := .initialSignup, previous_period_id := none,
                  stripe_subscription_id := some "sub1", stripe_invoice_id := none,
                  amount_cents := none, currency := none, paid_at := none }]
    next_period_id := 1 }

/-- Concrete renewal event used by the C1 witness. -/
def c1_ev : SubscriptionEvent :=
  { id := "sub1", status := .active, current_period_start := 100, current_period_end := 200,
    cancel_at_period_end := false, is_renewal := true, items_changed := false, items := [] }

/-- Concrete environment used by the C1 witness: the price switch raises a
non-sandbox-clock error. -/
def c1_env : StripeEnv :=
  { price_mapping := [("price_team", .team)]
    price_for_plan := fun p => if p = .team then some "price_team" else none
    update_outcome := some "Your card was declined."
    detect_pm := (true, some "pm1")
    sub_result := { id := "sub1", current_period_start := 100 }
    sub_detect_pm := (true, some "pm1") }

/-- Witness for C1 at a concrete input. -/
theorem c1_renewal_switch_failure_no_local_write_witness :
    handle_subscription_updated c1_env c1_ev 100 c1_db = c1_db :=
  c1_renewal_switch_failure_no_local_write c1_env c1_ev 100 c1_db
    "Your card was declined." "price_team" rfl rfl rfl rfl rfl rfl (by decide)

theorem updated_db_write_renewal_success_facts (env : StripeEnv) (ev : SubscriptionEvent)
    (now : Nat) (db : BillingDb) (inferred : InferredPlan)
    (hren : ev.is_renewal = true)
    (hclr : inferred.should_clear_pending = true)
    (hfresh : period_target_exists db.periods inferred.plan ev.current_period_start
        ev.current_period_end (some ev.id) .active = false) :
    (updated_db_write env ev now db inferred true).billing.billing_plan = inferred.plan ∧
    (updated_db_write env ev now db inferred true).billing.pending_plan_change = none ∧
    (updated_db_write env ev now db inferred true).billing.pending_plan_change_at = none ∧
    (updated_db_write env ev now db inferred true).periods.length = db.periods.length + 1 ∧
    (updated_db_write env ev now db inferred true).periods.getLast?.map
        (fun p => (p.plan, p.status)) = some (inferred.plan, BillingPeriodStatus.active) := by
  unfold updated_db_write
  simp only [hren, hclr, Bool.not_true, Bool.and_false, Bool.false_eq_true, if_false,
    if_true, should_create_new_period, Bool.and_true, Bool.true_and, Bool.or_self,
    Bool.true_or, ite_true]
  cases hdp : env.detect_pm.2 <;>
    cases hy : db.billing.has_yearly_prepay <;>
      cases hex : db.billing.yearly_prepay_expires_at <;>
        simp [hdp, hy, hex, hfresh, apply_ite, create_billing_period, supersede_open,
          List.getLast?_concat]

theorem handle_updated_eq_write_of_success (env : StripeEnv) (ev : SubscriptionEvent)
    (now : Nat) (db : BillingDb) (pid : String)
    (hlk : db.billing.stripe_subscription_id = some ev.id)
    (hchg : (updated_inference env ev db.billing).changed = true)
    (hclr : (updated_inference env ev db.billing).should_clear_pending = true)
    (hren : ev.is_renewal = true)
    (hprice : env.price_for_plan (updated_inference env ev db.billing).plan = some pid)
    (hout : env.update_outcome = none) :
    handle_subscription_updated env ev now db =
      updated_db_write env ev now db (updated_inference env ev db.billing) true := by
  unfold handle_subscription_updated
  rw [hlk, if_pos rfl]
  have hsw : switch_attempted ev (updated_inference env ev db.billing) = true := by
    simp [switch_attempted, hren, hchg, hclr]
  rw [hsw, if_pos rfl, hprice, hout]

theorem handle_updated_eq_write_of_testclock (env : StripeEnv) (ev : SubscriptionEvent)
    (now : Nat) (db : BillingDb) (msg pid : String)
    (hlk : db.billing.stripe_subscription_id = some ev.id)
    (hchg : (updated_inference env ev db.billing).changed = true)
    (hclr : (updated_inference env ev db.billing).should_clear_pending = true)
    (hren : ev.is_renewal = true)
    (hprice : env.price_for_plan (updated_inference env ev db.billing).plan = some pid)
    (hout : env.update_outcome = some msg)
    (hclock : is_test_clock_error msg = true) :
    handle_subscription_updated env ev now db =
      updated_db_write env ev now db (updated_inference env ev db.billing) true := by
  unfold handle_subscription_updated
  rw [hlk, if_pos rfl]
  have hsw : switch_attempted ev (updated_inference env ev db.billing) = true := by
    simp [switch_attempted, hren, hchg, hclr]
  rw [hsw, if_pos rfl, hprice, hout]
  simp only [hclock, if_true]

/-- C5: a renewal plan-switch failing with the recognized sandbox-clock error
is success-equivalent. -/
theorem c5_sandbox_clock_success_equivalent (env : StripeEnv) (ev : SubscriptionEvent)
    (now : Nat) (db : BillingDb) (msg pid : String)
    (hlk : db.billing.stripe_subscription_id = some ev.id)
    (hchg : (updated_inference env ev db.billing).changed = true)
    (hclr : (updated_inference env ev db.billing).should_clear_pending = true)
    (hren : ev.is_renewal = true)
    (hprice : env.price_for_plan (updated_inference env ev db.billing).plan = some pid)
    (hclock : is_test_clock_error msg = true)
    (hfresh : period_target_exists db.periods (updated_inference env ev db.billing).plan
        ev.current_period_start ev.current_period_end (some ev.id) .active = false) :
    handle_subscription_updated { env with update_outcome := some msg } ev now db =
      handle_subscription_updated { env with update_outcome := none } ev now db ∧
    (handle_subscription_updated { env with update_outcome := some msg } ev now
        db).billing.billing_plan = (updated_inference env ev db.billing).plan ∧
    (handle_subscription_updated { env with update_outcome := some msg } ev now
        db).billing.pending_plan_change = none ∧
    (handle_subscription_updated { env with update_outcome := some msg } ev now
        db).billing.pending_plan_change_at = none ∧
    (handle_subscription_updated { env with update_outcome := some msg } ev now
        db).periods.length = db.periods.length + 1 ∧
    (handle_subscription_updated { env with update_outcome := some msg } ev now
        db).periods.getLast?.map (fun p => (p.plan, p.status)) =
      some ((updated_inference env ev db.billing).plan, BillingPeriodStatus.active) := by
  have h1 : handle_subscription_updated { env with update_outcome := some msg } ev now db =
      updated_db_write { env with update_outcome := some msg } ev now db
        (updated_inference env ev db.billing) true :=
    handle_updated_eq_write_of_testclock { env with update_outcome := some msg } ev now db
      msg pid hlk hchg hclr hren hprice rfl hclock
  have h2 : handle_subscription_updated { env with update_outcome := none } ev now db =
      updated_db_write { env with update_outcome := none } ev now db
        (updated_inference env ev db.billing) true :=
    handle_updated_eq_write_of_success { env with update_outcome := none } ev now db
      pid hlk hchg hclr hren hprice rfl
  have hfacts := updated_db_write_renewal_success_facts
    { env with update_outcome := some msg } ev now db
    (updated_inference env ev db.billing) hren hclr hfresh
  have henv : updated_db_write { env with update_outcome := some msg } ev now db
      (updated_inference env ev db.billing) true =
      updated_db_write { env with update_outcome := none } ev now db
        (updated_inference env ev db.billing) true := by
    unfold updated_db_write
    rfl
  refine ⟨?_, ?_, ?_, ?_, ?_, ?_⟩
  · rw [h1, h2, henv]
  · rw [h1]; exact hfacts.1
  · rw [h1]; exact hfacts.2.1
  · rw [h1]; exact hfacts.2.2.1
  · rw [h1]; exact hfacts.2.2.2.1
  · rw [h1]; exact hfacts.2.2.2.2

/-- Concrete billing record used by the C5 witness. -/
def c5_billing : OrganizationBilling :=
  { organization_id := "org5"
    stripe_customer_id := "cus5"
    stripe_subscription_id := some "sub5"
    billing_plan := .team
    billing_status := .active
    current_period_start := some 0
    current_period_end := some 100
    cancel_at_period_end := false
    pending_plan_change := some .pro
    pending_plan_change_at := some 100
    grace_period_ends_at := none
    payment_method_added := true
    payment_method_id := some "pm5"
    has_yearly_prepay := false
    yearly_prepay_started_at := none
    yearly_prepay_expires_at := none
    yearly_prepay_amount_cents := none
    yearly_prepay_coupon_id := none
    yearly_prepay_payment_intent_id := none
    last_payment_status := none
    last_payment_at := none }

/-- Concrete database used by the C5 witness. -/
def c5_db : BillingDb :=
  { billing := c5_billing
    periods := [{ id := 0, plan := .team, period_start := 0, period_end := 100,
                  status := .active, transition := .initialSignup, previous_period_id := none,
                  stripe_subscription_id := some "sub5", stripe_invoice_id := none,
                  amount_cents := none, currency := none, paid_at := none }]
    next_period_id := 1 }

/-- Concrete renewal event used by the C5 witness. -/
def c5_ev : SubscriptionEvent :=
  { id := "sub5", status := .active, current_period_start := 100, current_period_end := 200,
    cancel_at_period_end := false, is_renewal := true, items_changed := false, items := [] }

/-- Concrete environment used by the C5 witness. -/
def c5_env : StripeEnv :=
  { price_mapping := [("price_pro", .pro)]
    price_for_plan := fun p => if p = .pro then some "price_pro" else none
    update_outcome := none
    detect_pm := (true, some "pm5")
    sub_result := { id := "sub5", current_period_start := 100 }
    sub_detect_pm := (true, some "pm5") }

/-- Witness for C5 at a concrete input. -/
theorem c5_sandbox_clock_success_equivalent_witness :
    handle_subscription_updated
        { c5_env with update_outcome := some "Test clock advancement is in progress" }
        c5_ev 100 c5_db =
      handle_subscription_updated { c5_env with update_outcome := none } c5_ev 100 c5_db ∧
    (handle_subscription_updated
        { c5_env with update_outcome := some "Test clock advancement is in progress" }
        c5_ev 100 c5_db).billing.billing_plan = (updated_inference c5_env c5_ev c5_billing).plan ∧
    (handle_subscription_updated
        { c5_env with update_outcome := some "Test clock advancement is in progress" }
        c5_ev 100 c5_db).billing.pending_plan_change = none ∧
    (handle_subscription_updated
        { c5_env with update_outcome := some "Test clock advancement is in progress" }
        c5_ev 100 c5_db).billing.pending_plan_change_at = none ∧
    (handle_subscription_updated
        { c5_env with update_outcome := some "Test clock advancement is in progress" }
        c5_ev 100 c5_db).periods.length = c5_db.periods.length + 1 ∧
    (handle_subscription_updated
        { c5_env with update_outcome := some "Test clock advancement is in progress" }
        c5_ev 100 c5_db).periods.getLast?.map (fun p => (p.plan, p.status)) =
      some ((updated_inference c5_env c5_ev c5_billing).plan, BillingPeriodStatus.active) :=
  c5_sandbox_clock_success_equivalent c5_env c5_ev 100 c5_db
    "Test clock advancement is in progress" "price_pro" rfl rfl rfl rfl rfl (by decide)
    (by decide)

theorem get_current_billing_period_mem (periods : List BillingPeriod) (at_time : Nat)
    (p : BillingPeriod) (h : get_current_billing_period periods at_time = some p) :
    p ∈ periods := by
  have key : ∀ (l : List BillingPeriod) (acc : Option BillingPeriod) (q : BillingPeriod),
      (l.foldl (fun acc p =>
        match acc with
        | none => some p
        | some q => if q.id ≤ p.id then some p else some q) acc) = some q →
      q ∈ l ∨ acc = some q := by
    intro l
    induction l with
    | nil => intro acc q h; exact Or.inr h
    | cons a t ih =>
      intro acc q h
      rcases ih _ q h with hm | hacc
      · exact Or.inl (List.mem_cons_of_mem a hm)
      · cases acc with
        | none =>
          simp only at hacc
          cases hacc
          exact Or.inl (List.mem_cons_self _ _)
        | some r =>
          simp only at hacc
          by_cases hle : r.id ≤ a.id
          · rw [if_pos hle] at hacc
            cases hacc
            exact Or.inl (List.mem_cons_self _ _)
          · rw [if_neg hle] at hacc
            exact Or.inr hacc
  unfold get_current_billing_period at h
  rcases key _ _ _ h with hm | hacc
  · exact List.mem_of_mem_filter hm
  · cases hacc

theorem c2_deleted_canceled_state (ev : DeletedEvent) (now : Nat) (db : BillingDb)
    (p : BillingPeriod)
    (hlk : db.billing.stripe_subscription_id = some ev.id)
    (hst : ev.status = some "canceled")
    (hcur : get_current_billing_period db.periods now = some p)
    (hact : p.status = .active) :
    { p with status := BillingPeriodStatus.completed } ∈
        (handle_subscription_deleted ev now db).periods ∧
    (handle_subscription_deleted ev now db).billing.billing_status = .active ∧
    (handle_subscription_deleted ev now db).billing.stripe_subscription_id = none ∧
    (handle_subscription_deleted ev now db).billing.cancel_at_period_end = false ∧
    (handle_subscription_deleted ev now db).billing.pending_plan_change = none ∧
    (handle_subscription_deleted ev now db).billing.pending_plan_change_at = none ∧
    (handle_subscription_deleted ev now db).billing.billing_plan =
      db.billing.pending_plan_change.getD db.billing.billing_plan := by
  have hred : handle_subscription_deleted ev now db =
      { complete_billing_period db p.id .completed with
        billing :=
          { (complete_billing_period db p.id .completed).billing with
            billing_status := .active
            billing_plan := (complete_billing_period db p.id
              .completed).billing.pending_plan_change.getD
                (complete_billing_period db p.id .completed).billing.billing_plan
            stripe_subscription_id := none
            cancel_at_period_end := false
            pending_plan_change := none
            pending_plan_change_at := none } } := by
    unfold handle_subscription_deleted
    rw [hlk, if_pos rfl, hst, if_pos rfl, hcur]
  have hmem := get_current_billing_period_mem db.periods now p hcur
  constructor
  · rw [hred]
    show { p with status := BillingPeriodStatus.completed } ∈
      (complete_billing_period db p.id .completed).periods
    unfold complete_billing_period
    have hm := List.mem_map_of_mem
      (fun q => if q.id = p.id ∧ is_open_status q.status then
        { q with status := BillingPeriodStatus.completed } else q) hmem
    simpa [hact, is_open_status] using hm
  · rw [hred]
    exact ⟨rfl, rfl, rfl, rfl, rfl, rfl⟩

/-- Concrete billing record used by the C2 counterexample: Team plan, no
pending change. -/
def c2x_billing : OrganizationBilling :=
  { organization_id := "org2"
    stripe_customer_id := "cus2"
    stripe_subscription_id := some "sub2"
    billing_plan := .team
    billing_status := .active
    current_period_start := some 0
    current_period_end := some 200
    cancel_at_period_end := false
    pending_plan_change := none
    pending_plan_change_at := none
    grace_period_ends_at := none
    payment_method_added := true
    payment_method_id := some "pm2"
    has_yearly_prepay := false
    yearly_prepay_started_at := none
    yearly_prepay_expires_at := none
    yearly_prepay_amount_cents := none
    yearly_prepay_coupon_id := none
    yearly_prepay_payment_intent_id := none
    last_payment_status := none
    last_payment_at := none }

/-- Concrete database used by the C2 counterexample. -/
def c2x_db : BillingDb :=
  { billing := c2x_billing
    periods := [{ id := 0, plan := .team, period_start := 0, period_end := 200,
                  status := .active, transition := .initialSignup, previous_period_id := none,
                  stripe_subscription_id := some "sub2", stripe_invoice_id := none,
                  amount_cents := none, currency := none, paid_at := none }]
    next_period_id := 1 }

/-- Concrete deletion event used by the C2 counterexample. -/
def c2x_ev : DeletedEvent := { id := "sub2", status := some "canceled" }

/-- C2 counterexample: cancelling with no pending change keeps the Team plan;
the resting plan is neither the free Developer plan nor the Pro default, so
the claim that the record falls back to the free or base plan fails here. -/
theorem c2_counterexample :
    (handle_subscription_deleted c2x_ev 150 c2x_db).billing.billing_plan = .team ∧
    BillingPlan.team ≠ .developer ∧ BillingPlan.team ≠ .pro := by
  decide

/-- Concrete billing record used by the C2 witness: pending Enterprise change. -/
def c2_billing : OrganizationBilling :=
  { c2x_billing with
    organization_id := "org2w"
    pending_plan_change := some .enterprise
    pending_plan_change_at := some 200 }

/-- Concrete database used by the C2 witness. -/
def c2_db : BillingDb := { c2x_db with billing := c2_billing }

/-- Concrete current period of the C2 witness database. -/
def c2_period : BillingPeriod :=
  { id := 0, plan := .team, period_start := 0, period_end := 200,
    status := .active, transition := .initialSignup, previous_period_id := none,
    stripe_subscription_id := some "sub2", stripe_invoice_id := none,
    amount_cents := none, currency := none, paid_at := none }

/-- Witness for the amended C2 at a concrete input. -/
theorem c2_deleted_canceled_state_witness :
    { c2_period with status := BillingPeriodStatus.completed } ∈
        (handle_subscription_deleted c2x_ev 150 c2_db).periods ∧
    (handle_subscription_deleted c2x_ev 150 c2_db).billing.billing_status = .active ∧
    (handle_subscription_deleted c2x_ev 150 c2_db).billing.stripe_subscription_id = none ∧
    (handle_subscription_deleted c2x_ev 150 c2_db).billing.cancel_at_period_end = false ∧
    (handle_subscription_deleted c2x_ev 150 c2_db).billing.pending_plan_change = none ∧
    (handle_subscription_deleted c2x_ev 150 c2_db).billing.pending_plan_change_at = none ∧
    (handle_subscription_deleted c2x_ev 150 c2_db).billing.billing_plan =
      c2_db.billing.pending_plan_change.getD c2_db.billing.billing_plan :=
  c2_deleted_canceled_state c2x_ev 150 c2_db c2_period rfl rfl (by decide) rfl

theorem period_target_exists_complete_grace (db : BillingDb) (pid : Nat)
    (plan : BillingPlan) (ps pe : Nat) (sub : Option String)
    (h : period_target_exists db.periods plan ps pe sub .grace = false) :
    period_target_exists (complete_billing_period db pid .endedUnpaid).periods
      plan ps pe sub .grace = false := by
  unfold period_target_exists at h ⊢
  unfold complete_billing_period
  rw [List.any_eq_false] at h ⊢
  intro x hx
  rcases List.mem_map.mp hx with ⟨q, hq, rfl⟩
  by_cases hc : q.id = pid ∧ is_open_status q.status = true
  · simp [hc]
  · simp only [hc, if_false]
    exact h q hq

/-- C3: a subscription_cycle payment failure with a current Active period
completes it as EndedUnpaid and opens a linked 7-day Grace period, setting
PastDue and grace_period_ends_at; without a current period the record is only
marked PastDue. -/
theorem c3_payment_failed_grace (ev : InvoiceEvent) (now : Nat) (db : BillingDb) (s : String)
    (hsub : ev.subscription = some s)
    (hcust : db.billing.stripe_customer_id = ev.customer)
    (hreason : ev.billing_reason = some "subscription_cycle") :
    (∀ p : BillingPeriod, get_current_billing_period db.periods now = some p →
      p.status = .active →
      period_target_exists db.periods p.plan p.period_end (now + 7 * 86400)
          db.billing.stripe_subscription_id .grace = false →
      ({ p with status := BillingPeriodStatus.endedUnpaid } ∈
          (handle_payment_failed ev now db).periods ∧
        (handle_payment_failed ev now db).periods.getLast? =
          some { id := db.next_period_id, plan := p.plan, period_start := p.period_end,
                 period_end := now + 7 * 86400, status := .grace, transition := .renewal,
                 previous_period_id := some p.id,
                 stripe_subscription_id := db.billing.stripe_subscription_id,
                 stripe_invoice_id := none, amount_cents := none, currency := none,
                 paid_at := none } ∧
        (handle_payment_failed ev now db).billing.billing_status = .pastDue ∧
        (handle_payment_failed ev now db).billing.grace_period_ends_at =
          some (now + 7 * 86400) ∧
        (handle_payment_failed ev now db).billing.last_payment_status = some "failed")) ∧
    (get_current_billing_period db.periods now = none →
      handle_payment_failed ev now db =
        { db with
          billing :=
            { db.billing with
              last_payment_status := some "failed", billing_status := .pastDue } }) := by
  constructor
  · intro p hp hact hfresh
    have hchk : period_target_exists
        (complete_billing_period db p.id .endedUnpaid).periods p.plan p.period_end
        (now + 7 * 86400) db.billing.stripe_subscription_id .grace = false :=
      period_target_exists_complete_grace db p.id p.plan p.period_end (now + 7 * 86400)
        db.billing.stripe_subscription_id hfresh
    have hred : handle_payment_failed ev now db =
        { create_billing_period (complete_billing_period db p.id .endedUnpaid) p.plan
            p.period_end (now + 7 * 86400) .renewal db.billing.stripe_subscription_id
            (some p.id) .grace with
          billing :=
            { (create_billing_period (complete_billing_period db p.id .endedUnpaid) p.plan
                p.period_end (now + 7 * 86400) .renewal db.billing.stripe_subscription_id
                (some p.id) .grace).billing with
              last_payment_status := some "failed"
              billing_status := .pastDue
              grace_period_ends_at := some (now + 7 * 86400) } } := by
      unfold handle_payment_failed
      rw [hsub]
      simp only [Option.isNone_some, Bool.false_eq_true, if_false]
      rw [if_pos hcust, hreason, if_pos rfl, hp]
    have hmem := get_current_billing_period_mem db.periods now p hp
    have hmem2 : { p with status := BillingPeriodStatus.endedUnpaid } ∈
        (complete_billing_period db p.id .endedUnpaid).periods := by
      unfold complete_billing_period
      have hm := List.mem_map_of_mem
        (fun q => if q.id = p.id ∧ is_open_status q.status then
          { q with status := BillingPeriodStatus.endedUnpaid } else q) hmem
      simpa [hact, is_open_status] using hm
    have hmem3 : { p with status := BillingPeriodStatus.endedUnpaid } ∈
        (create_billing_period (complete_billing_period db p.id .endedUnpaid) p.plan
          p.period_end (now + 7 * 86400) .renewal db.billing.stripe_subscription_id
          (some p.id) .grace).periods := by
      unfold create_billing_period supersede_open
      simp only [hchk, Bool.false_eq_true, if_false]
      refine List.mem_append_left _ ?_
      have hm := List.mem_map_of_mem
        (fun q => if is_open_status q.status then
          { q with status := BillingPeriodStatus.completed } else q) hmem2
      simpa [is_open_status] using hm
    rw [hred]
    refine ⟨hmem3, ?_, rfl, rfl, rfl⟩
    show (create_billing_period (complete_billing_period db p.id .endedUnpaid) p.plan
        p.period_end (now + 7 * 86400) .renewal db.billing.stripe_subscription_id
        (some p.id) .grace).periods.getLast? = _
    unfold create_billing_period
    simp only [hchk, Bool.false_eq_true, if_false]
    simp [List.getLast?_concat, complete_billing_period]
  · intro hnone
    unfold handle_payment_failed
    rw [hsub]
    simp only [Option.isNone_some, Bool.false_eq_true, if_false]
    rw [if_pos hcust, hreason, if_pos rfl, hnone]

/-- Concrete billing record used by the C3 witness. -/
def c3_billing : OrganizationBilling :=
  { organization_id := "org3"
    stripe_customer_id := "cus3"
    stripe_subscription_id := some "sub3"
    billing_plan := .pro
    billing_status := .active
    current_period_start := some 0
    current_period_end := some 1000
    cancel_at_period_end := false
    pending_plan_change := none
    pending_plan_change_at := none
    grace_period_ends_at := none
    payment_method_added := true
    payment_method_id := some "pm3"
    has_yearly_prepay := false
    yearly_prepay_started_at := none
    yearly_prepay_expires_at := none
    yearly_prepay_amount_cents := none
    yearly_prepay_coupon_id := none
    yearly_prepay_payment_intent_id := none
    last_payment_status := none
    last_payment_at := none }

/-- Concrete current period used by the C3 witness. -/
def c3_period : BillingPeriod :=
  { id := 0, plan := .pro, period_start := 0, period_end := 1000,
    status := .active, transition := .initialSignup, previous_period_id := none,
    stripe_subscription_id := some "sub3", stripe_invoice_id := none,
    amount_cents := none, currency := none, paid_at := none }

/-- Concrete database used by the C3 witness. -/
def c3_db : BillingDb :=
  { billing := c3_billing, periods := [c3_period], next_period_id := 1 }

/-- Concrete renewal-cycle payment-failure event used by the C3 witness. -/
def c3_ev : InvoiceEvent :=
  { subscription := some "sub3", customer := "cus3",
    billing_reason := some "subscription_cycle", invoice_id := some "in3",
    amount_paid := some 2000, currency := some "usd", paid_at_ts := none }

/-- Witness for C3 at a concrete input. -/
theorem c3_payment_failed_grace_witness :
    { c3_period with status := BillingPeriodStatus.endedUnpaid } ∈
        (handle_payment_failed c3_ev 500 c3_db).periods ∧
    (handle_payment_failed c3_ev 500 c3_db).periods.getLast? =
      some { id := c3_db.next_period_id, plan := c3_period.plan,
             period_start := c3_period.period_end, period_end := 500 + 7 * 86400,
             status := .grace, transition := .renewal,
             previous_period_id := some c3_period.id,
             stripe_subscription_id := c3_db.billing.stripe_subscription_id,
             stripe_invoice_id := none, amount_cents := none, currency := none,
             paid_at := none } ∧
    (handle_payment_failed c3_ev 500 c3_db).billing.billing_status = .pastDue ∧
    (handle_payment_failed c3_ev 500 c3_db).billing.grace_period_ends_at =
      some (500 + 7 * 86400) ∧
    (handle_payment_failed c3_ev 500 c3_db).billing.last_payment_status = some "failed" :=
  (c3_payment_failed_grace c3_ev 500 c3_db "sub3" rfl rfl rfl).1 c3_period rfl rfl (by decide)

/-- C4 (amended): with pending_plan_change_at strictly in the future of the
reference time (the processor-reported period start), the effective-date gate
withholds the pending plan from inference; when the line items are unchanged
the inference result is the current plan, unchanged. -/
theorem c4_pending_gate_future (env : StripeEnv) (ev : SubscriptionEvent)
    (billing : OrganizationBilling) (t : Nat)
    (hat : billing.pending_plan_change_at = some t)
    (hfut : ev.current_period_start < t) :
    pending_to_apply_gate billing ev.current_period_start = none ∧
    (ev.items_changed = false →
      updated_inference env ev billing =
        { plan := billing.billing_plan, changed := false, should_clear_pending := false }) := by
  have hgate : pending_to_apply_gate billing ev.current_period_start = none := by
    unfold pending_to_apply_gate
    rw [hat]
    cases billing.pending_plan_change with
    | none => rfl
    | some p =>
      simp only []
      rw [if_neg (Nat.not_le.mpr hfut)]
  refine ⟨hgate, ?_⟩
  intro hitems
  unfold updated_inference infer_plan_from_webhook
  rw [hgate]
  simp only []
  unfold infer_from_items
  simp [hitems]

/-- Concrete billing record used by the C4 counterexample and witness: pending
Team change not yet due. -/
def c4_billing : OrganizationBilling :=
  { organization_id := "org4"
    stripe_customer_id := "cus4"
    stripe_subscription_id := some "sub4"
    billing_plan := .pro
    billing_status := .active
    current_period_start := some 0
    current_period_end := some 100
    cancel_at_period_end := false
    pending_plan_change := some .team
    pending_plan_change_at := some 1000
    grace_period_ends_at := none
    payment_method_added := true
    payment_method_id := some "pm4"
    has_yearly_prepay := false
    yearly_prepay_started_at := none
    yearly_prepay_expires_at := none
    yearly_prepay_amount_cents := none
    yearly_prepay_coupon_id := none
    yearly_prepay_payment_intent_id := none
    last_payment_status := none
    last_payment_at := none }

/-- Concrete renewal event used by the C4 counterexample: the line items also
changed, to a price mapping to Enterprise. -/
def c4x_ev : SubscriptionEvent :=
  { id := "sub4", status := .active, current_period_start := 100, current_period_end := 200,
    cancel_at_period_end := false, is_renewal := true, items_changed := true,
    items := ["price_ent"] }

/-- Concrete environment used by the C4 counterexample. -/
def c4_env : StripeEnv :=
  { price_mapping := [("price_ent", .enterprise)]
    price_for_plan := fun _ => none
    update_outcome := none
    detect_pm := (true, some "pm4")
    sub_result := { id := "sub4", current_period_start := 100 }
    sub_detect_pm := (true, some "pm4") }

/-- C4 counterexample: although the pending change is gated off (its effective
date 1000 is after the reference time 100), an item change mapping to
Enterprise makes inference report a changed plan, so the claim that the result
always equals the current plan with changed false fails. -/
theorem c4_counterexample :
    c4_billing.pending_plan_change_at = some 1000 ∧
    c4x_ev.current_period_start < 1000 ∧
    pending_to_apply_gate c4_billing c4x_ev.current_period_start = none ∧
    ¬((updated_inference c4_env c4x_ev c4_billing).plan = c4_billing.billing_plan ∧
      (updated_inference c4_env c4x_ev c4_billing).changed = false) := by
  decide

/-- Concrete renewal event used by the C4 witness: no item change. -/
def c4_ev : SubscriptionEvent :=
  { id := "sub4", status := .active, current_period_start := 100, current_period_end := 200,
    cancel_at_period_end := false, is_renewal := true, items_changed := false, items := [] }

/-- Witness for the amended C4 at a concrete input. -/
theorem c4_pending_gate_future_witness :
    pending_to_apply_gate c4_billing c4_ev.current_period_start = none ∧
    (c4_ev.items_changed = false →
      updated_inference c4_env c4_ev c4_billing =
        { plan := c4_billing.billing_plan, changed := false, should_clear_pending := false }) :=
  c4_pending_gate_future c4_env c4_ev c4_billing 1000 rfl (by decide)

/-- C7: payment success while PastDue reactivates the record and stamps the
payment fields; every period keeps its id, plan, bounds and status (only
invoice-stamp fields may change). -/
theorem c7_payment_succeeded_recovery (ev : InvoiceEvent) (now : Nat) (db : BillingDb)
    (s : String)
    (hsub : ev.subscription = some s)
    (hcust : db.billing.stripe_customer_id = ev.customer)
    (hpd : db.billing.billing_status = .pastDue) :
    (handle_payment_succeeded ev now db).billing.billing_status = .active ∧
    (handle_payment_succeeded ev now db).billing.last_payment_status = some "succeeded" ∧
    (handle_payment_succeeded ev now db).billing.last_payment_at = some now ∧
    (handle_payment_succeeded ev now db).periods.map
        (fun p => (p.id, p.plan, p.period_start, p.period_end, p.status)) =
      db.periods.map (fun p => (p.id, p.plan, p.period_start, p.period_end, p.status)) := by
  unfold handle_payment_succeeded
  rw [hsub]
  simp only [Option.isNone_some, Bool.false_eq_true, if_false]
  rw [if_pos hcust, if_pos hpd]
  rcases h : get_current_billing_period db.periods now with _ | p
  · exact ⟨rfl, rfl, rfl, rfl⟩
  · dsimp only
    by_cases hop : is_open_status p.status = true
    · rw [if_pos hop]
      refine ⟨rfl, rfl, rfl, ?_⟩
      show (db.periods.map fun q => if q.id = p.id then stamp_invoice q ev now else q).map _ = _
      rw [List.map_map]
      refine List.map_congr_left ?_
      intro q _
      by_cases hq : q.id = p.id
      · simp [hq, stamp_invoice, Function.comp]
      · simp [hq, Function.comp]
    · rw [if_neg hop]
      exact ⟨rfl, rfl, rfl, rfl⟩

/-- Concrete billing record used by the C7 witness: a PastDue record. -/
def c7_billing : OrganizationBilling :=
  { organization_id := "org7"
    stripe_customer_id := "cus7"
    stripe_subscription_id := some "sub7"
    billing_plan := .pro
    billing_status := .pastDue
    current_period_start := some 0
    current_period_end := some 100
    cancel_at_period_end := false
    pending_plan_change := none
    pending_plan_change_at := none
    grace_period_ends_at := some 200
    payment_method_added := true
    payment_method_id := some "pm7"
    has_yearly_prepay := false
    yearly_prepay_started_at := none
    yearly_prepay_expires_at := none
    yearly_prepay_amount_cents := none
    yearly_prepay_coupon_id := none
    yearly_prepay_payment_intent_id := none
    last_payment_status := some "failed"
    last_payment_at := none }

/-- Concrete database used by the C7 witness: a Grace period is current. -/
def c7_db : BillingDb :=
  { billing := c7_billing
    periods := [{ id := 0, plan := .pro, period_start := 0, period_end := 100,
                  status := .endedUnpaid, transition := .initialSignup,
                  previous_period_id := none, stripe_subscription_id := some "sub7",
                  stripe_invoice_id := none, amount_cents := none, currency := none,
                  paid_at := none },
                { id := 1, plan := .pro, period_start := 100, period_end := 200,
                  status := .grace, transition := .renewal, previous_period_id := some 0,
                  stripe_subscription_id := some "sub7", stripe_invoice_id := none,
                  amount_cents := none, currency := none, paid_at := none }]
    next_period_id := 2 }

/-- Concrete payment-success event used by the C7 witness. -/
def c7_ev : InvoiceEvent :=
  { subscription := some "sub7", customer := "cus7", billing_reason := some "subscription_cycle",
    invoice_id := some "in7", amount_paid := some 2000, currency := some "usd",
    paid_at_ts := some 150 }

/-- Witness for C7 at a concrete input. -/
theorem c7_payment_succeeded_recovery_witness :
    (handle_payment_succeeded c7_ev 150 c7_db).billing.billing_status = .active ∧
    (handle_payment_succeeded c7_ev 150 c7_db).billing.last_payment_status = some "succeeded" ∧
    (handle_payment_succeeded c7_ev 150 c7_db).billing.last_payment_at = some 150 ∧
    (handle_payment_succeeded c7_ev 150 c7_db).periods.map
        (fun p => (p.id, p.plan, p.period_start, p.period_end, p.status)) =
      c7_db.periods.map (fun p => (p.id, p.plan, p.period_start, p.period_end, p.status)) :=
  c7_payment_succeeded_recovery c7_ev 150 c7_db "sub7" rfl rfl rfl

/-- C8: a finalized yearly-prepay checkout persists
expires_at = subscription current_period_start + 365 days, taken from the
processor-reported subscription, independent of the local clock. -/
theorem c8_yearly_prepay_expiry (env : StripeEnv) (session : CheckoutSession) (now : Nat)
    (db : BillingDb) (oid plan_str coupon pi_id pid : String) (plan : BillingPlan)
    (hty : session.metadata_type = some "yearly_prepay")
    (horg : session.metadata_org = some oid)
    (hpl : session.metadata_plan = some plan_str)
    (hcp : session.metadata_coupon = some coupon)
    (hpi : session.payment_intent = some pi_id)
    (hmatch : oid = db.billing.organization_id)
    (hofs : BillingPlan.ofString plan_str = some plan)
    (hprice : env.price_for_plan plan = some pid) :
    (finalize_yearly_prepay env session now db).billing.yearly_prepay_expires_at =
      some (env.sub_result.current_period_start + 365 * 86400) ∧
    (finalize_yearly_prepay env session now db).billing.stripe_subscription_id =
      some env.sub_result.id ∧
    (finalize_yearly_prepay env session now db).billing.billing_plan = plan ∧
    (finalize_yearly_prepay env session now db).billing.has_yearly_prepay = true := by
  unfold finalize_yearly_prepay
  rw [hty, if_pos rfl, horg, hpl, hcp, hpi]
  simp only []
  rw [if_pos hmatch, hofs]
  dsimp only
  rw [hprice]
  exact ⟨rfl, rfl, rfl, rfl⟩

/-- Concrete checkout session used by the C8 witness. -/
def c8_session : CheckoutSession :=
  { metadata_type := some "yearly_prepay", metadata_org := some "org8",
    metadata_plan := some "team", metadata_coupon := some "coupon8",
    payment_intent := some "pi8" }

/-- Concrete billing record used by the C8 witness. -/
def c8_billing : OrganizationBilling :=
  { organization_id := "org8"
    stripe_customer_id := "cus8"
    stripe_subscription_id := none
    billing_plan := .developer
    billing_status := .active
    current_period_start := none
    current_period_end := none
    cancel_at_period_end := false
    pending_plan_change := none
    pending_plan_change_at := none
    grace_period_ends_at := none
    payment_method_added := false
    payment_method_id := none
    has_yearly_prepay := false
    yearly_prepay_started_at := none
    yearly_prepay_expires_at := none
    yearly_prepay_amount_cents := none
    yearly_prepay_coupon_id := none
    yearly_prepay_payment_intent_id := none
    last_payment_status := none
    last_payment_at := none }

/-- Concrete database used by the C8 witness. -/
def c8_db : BillingDb := { billing := c8_billing, periods := [], next_period_id := 0 }

/-- Concrete environment used by the C8 witness: the processor reports a
subscription starting at 5000, while the local clock reads 777. -/
def c8_env : StripeEnv :=
  { price_mapping := [("price_team", .team)]
    price_for_plan := fun p => if p = .team then some "price_team" else none
    update_outcome := none
    detect_pm := (true, some "pm8")
    sub_result := { id := "sub8", current_period_start := 5000 }
    sub_detect_pm := (true, some "pm8") }

/-- Witness for C8 at a concrete input. -/
theorem c8_yearly_prepay_expiry_witness :
    (finalize_yearly_prepay c8_env c8_session 777 c8_db).billing.yearly_prepay_expires_at =
      some (c8_env.sub_result.current_period_start + 365 * 86400) ∧
    (finalize_yearly_prepay c8_env c8_session 777 c8_db).billing.stripe_subscription_id =
      some c8_env.sub_result.id ∧
    (finalize_yearly_prepay c8_env c8_session 777 c8_db).billing.billing_plan = .team ∧
    (finalize_yearly_prepay c8_env c8_session 777 c8_db).billing.has_yearly_prepay = true :=
  c8_yearly_prepay_expiry c8_env c8_session 777 c8_db "org8" "team" "coupon8" "pi8"
    "price_team" .team rfl rfl rfl rfl rfl rfl rfl rfl

/-- C9: a subscription.created event whose metadata has no plan key defaults
the plan to Pro, on the record and on the InitialSignup period. -/
theorem c9_created_defaults_to_pro (env : StripeEnv) (ev : CreatedEvent) (db : BillingDb)
    (oid : String)
    (horg : ev.metadata_org = some oid)
    (hmatch : oid = db.billing.organization_id)
    (hplan : ev.metadata_plan = none)
    (hfresh : period_target_exists db.periods .pro ev.current_period_start
        ev.current_period_end (some ev.id) .active = false) :
    (handle_subscription_created env ev db).billing.billing_plan = .pro ∧
    (handle_subscription_created env ev db).billing.billing_status = .active ∧
    (handle_subscription_created env ev db).billing.stripe_subscription_id = some ev.id ∧
    (handle_subscription_created env ev db).periods.getLast? =
      some { id := db.next_period_id, plan := .pro, period_start := ev.current_period_start,
             period_end := ev.current_period_end, status := .active,
             transition := .initialSignup, previous_period_id := none,
             stripe_subscription_id := some ev.id, stripe_invoice_id := none,
             amount_cents := none, currency := none, paid_at := none } := by
  unfold handle_subscription_created
  rw [horg]
  dsimp only
  rw [if_pos hmatch, hplan]
  dsimp only [Option.getD, BillingPlan.ofString]
  refine ⟨rfl, rfl, rfl, ?_⟩
  unfold create_billing_period
  simp only [hfresh, Bool.false_eq_true, if_false]
  simp [List.getLast?_concat]

/-- Concrete created event used by the C9 witness: metadata has the
organization id but no plan key. -/
def c9_ev : CreatedEvent :=
  { id := "sub9", metadata_org := some "org9", metadata_plan := none,
    current_period_start := 10, current_period_end := 20 }

/-- Concrete billing record used by the C9 witness. -/
def c9_billing : OrganizationBilling :=
  { organization_id := "org9"
    stripe_customer_id := "cus9"
    stripe_subscription_id := none
    billing_plan := .developer
    billing_status := .active
    current_period_start := none
    current_period_end := none
    cancel_at_period_end := false
    pending_plan_change := none
    pending_plan_change_at := none
    grace_period_ends_at := none
    payment_method_added := false
    payment_method_id := none
    has_yearly_prepay := false
    yearly_prepay_started_at := none
    yearly_prepay_expires_at := none
    yearly_prepay_amount_cents := none
    yearly_prepay_coupon_id := none
    yearly_prepay_payment_intent_id := none
    last_payment_status := none
    last_payment_at := none }

/-- Concrete database used by the C9 witness. -/
def c9_db : BillingDb := { billing := c9_billing, periods := [], next_period_id := 0 }

/-- Concrete environment used by the C9 witness. -/
def c9_env : StripeEnv :=
  { price_mapping := []
    price_for_plan := fun _ => none
    update_outcome := none
    detect_pm := (false, none)
    sub_result := { id := "sub9", current_period_start := 10 }
    sub_detect_pm := (false, none) }

/-- Witness for C9 at a concrete input. -/
theorem c9_created_defaults_to_pro_witness :
    (handle_subscription_created c9_env c9_ev c9_db).billing.billing_plan = .pro ∧
    (handle_subscription_created c9_env c9_ev c9_db).billing.billing_status = .active ∧
    (handle_subscription_created c9_env c9_ev c9_db).billing.stripe_subscription_id =
      some c9_ev.id ∧
    (handle_subscription_created c9_env c9_ev c9_db).periods.getLast? =
      some { id := c9_db.next_period_id, plan := .pro,
             period_start := c9_ev.current_period_start,
             period_end := c9_ev.current_period_end, status := .active,
             transition := .initialSignup, previous_period_id := none,
             stripe_subscription_id := some c9_ev.id, stripe_invoice_id := none,
             amount_cents := none, currency := none, paid_at := none } :=
  c9_created_defaults_to_pro c9_env c9_ev c9_db "org9" rfl rfl rfl (by decide)

set_option maxRecDepth 4000 in
set_option maxHeartbeats 1000000 in
theorem updated_db_write_pm_id_frame (env : StripeEnv) (ev : SubscriptionEvent) (now : Nat)
    (db : BillingDb) (inferred : InferredPlan) (s : Bool)
    (h : env.detect_pm.2 = none) :
    (updated_db_write env ev now db inferred s).billing.payment_method_id =
      db.billing.payment_method_id := by
  unfold updated_db_write
  simp only [h]
  repeat' split
  all_goals rfl

set_option maxRecDepth 4000 in
set_option maxHeartbeats 1000000 in
theorem updated_db_write_pm_added_set (env : StripeEnv) (ev : SubscriptionEvent) (now : Nat)
    (db : BillingDb) (inferred : InferredPlan) (s : Bool) :
    (updated_db_write env ev now db inferred s).billing.payment_method_added =
      env.detect_pm.1 := by
  unfold updated_db_write
  cases hdp : env.detect_pm.2 <;> simp only [hdp] <;>
    (repeat' split) <;> rfl

/-- C10: when payment-method detection returns no id, the updated handler
never clears the stored payment_method_id; payment_method_added is still
overwritten with the detected flag whenever the record update runs (here, any
non-renewal event on the matching subscription). -/
theorem c10_payment_method_id_preserved (env : StripeEnv) (ev : SubscriptionEvent)
    (now : Nat) (db : BillingDb) (b : Bool)
    (hpm : env.detect_pm = (b, none)) :
    (handle_subscription_updated env ev now db).billing.payment_method_id =
      db.billing.payment_method_id ∧
    (ev.is_renewal = false → db.billing.stripe_subscription_id = some ev.id →
      (handle_subscription_updated env ev now db).billing.payment_method_added = b) := by
  have h2 : env.detect_pm.2 = none := by rw [hpm]
  have h1 : env.detect_pm.1 = b := by rw [hpm]
  constructor
  · unfold handle_subscription_updated
    repeat' split
    all_goals first
      | rfl
      | exact updated_db_write_pm_id_frame env ev now db _ _ h2
  · intro hren hlk
    have hsw : switch_attempted ev (updated_inference env ev db.billing) = false := by
      simp [switch_attempted, hren]
    unfold handle_subscription_updated
    rw [if_pos hlk, hsw]
    simp only [Bool.false_eq_true, if_false]
    rw [updated_db_write_pm_added_set, h1]

/-- Concrete billing record used by the C10 witness: a stored payment method. -/
def c10_billing : OrganizationBilling :=
  { organization_id := "org10"
    stripe_customer_id := "cus10"
    stripe_subscription_id := some "sub10"
    billing_plan := .pro
    billing_status := .active
    current_period_start := some 0
    current_period_end := some 100
    cancel_at_period_end := false
    pending_plan_change := none
    pending_plan_change_at := none
    grace_period_ends_at := none
    payment_method_added := true
    payment_method_id := some "pm10"
    has_yearly_prepay := false
    yearly_prepay_started_at := none
    yearly_prepay_expires_at := none
    yearly_prepay_amount_cents := none
    yearly_prepay_coupon_id := none
    yearly_prepay_payment_intent_id := none
    last_payment_status := none
    last_payment_at := none }

/-- Concrete database used by the C10 witness. -/
def c10_db : BillingDb := { billing := c10_billing, periods := [], next_period_id := 0 }

/-- Concrete non-renewal event used by the C10 witness. -/
def c10_ev : SubscriptionEvent :=
  { id := "sub10", status := .active, current_period_start := 0, current_period_end := 100,
    cancel_at_period_end := false, is_renewal := false, items_changed := false, items := [] }

/-- Concrete environment used by the C10 witness: detection reports no payment
method at all. -/
def c10_env : StripeEnv :=
  { price_mapping := []
    price_for_plan := fun _ => none
    update_outcome := none
    detect_pm := (false, none)
    sub_result := { id := "sub10", current_period_start := 0 }
    sub_detect_pm := (false, none) }

/-- Witness for C10 at a concrete input. -/
theorem c10_payment_method_id_preserved_witness :
    (handle_subscription_updated c10_env c10_ev 50 c10_db).billing.payment_method_id =
      c10_db.billing.payment_method_id ∧
    (handle_subscription_updated c10_env c10_ev 50 c10_db).billing.payment_method_added =
      false :=
  ⟨(c10_payment_method_id_preserved c10_env c10_ev 50 c10_db false rfl).1,
   (c10_payment_method_id_preserved c10_env c10_ev 50 c10_db false rfl).2 rfl rfl⟩

set_option maxRecDepth 4000 in
set_option maxHeartbeats 1000000 in
theorem updated_db_write_nonrenewal_record (env : StripeEnv) (ev : SubscriptionEvent)
    (now : Nat) (db : BillingDb) (inferred : InferredPlan)
    (hren : ev.is_renewal = false) :
    (updated_db_write env ev now db inferred false).billing.stripe_subscription_id =
        db.billing.stripe_subscription_id ∧
    (updated_db_write env ev now db inferred false).billing.billing_status = ev.status ∧
    (updated_db_write env ev now db inferred false).billing.cancel_at_period_end =
        ev.cancel_at_period_end ∧
    (updated_db_write env ev now db inferred false).billing.current_period_start =
        some ev.current_period_start ∧
    (updated_db_write env ev now db inferred false).billing.current_period_end =
        some ev.current_period_end ∧
    (updated_db_write env ev now db inferred false).billing.payment_method_added =
        env.detect_pm.1 ∧
    (updated_db_write env ev now db inferred false).billing.pending_plan_change =
        db.billing.pending_plan_change ∧
    (updated_db_write env ev now db inferred false).billing.pending_plan_change_at =
        db.billing.pending_plan_change_at ∧
    (updated_db_write env ev now db inferred false).billing.billing_plan = inferred.plan ∧
    (updated_db_write env ev now db inferred false).billing.payment_method_id =
      (match env.detect_pm.2 with
        | some pid => some pid
        | none => db.billing.payment_method_id) := by
  have hsw : switch_attempted ev inferred = false := by
    simp [switch_attempted, hren]
  unfold updated_db_write
  simp only [hren, hsw, Bool.false_and, Bool.and_false, Bool.not_false, Bool.false_eq_true,
    if_false, Bool.false_or]
  cases hdp : env.detect_pm.2 <;>
    simp only [hdp] <;>
      (repeat' split) <;>
        exact ⟨rfl, rfl, rfl, rfl, rfl, rfl, rfl, rfl, rfl, rfl⟩

theorem create_billing_period_billing (db : BillingDb) (plan : BillingPlan) (ps pe : Nat)
    (transition : BillingTransition) (sub_id : Option String) (prev : Option Nat)
    (status : BillingPeriodStatus) :
    (create_billing_period db plan ps pe transition sub_id prev status).billing =
      db.billing := rfl

set_option maxRecDepth 8000 in
set_option maxHeartbeats 2000000 in
theorem updated_db_write_yearly_guard (env : StripeEnv) (ev : SubscriptionEvent)
    (now : Nat) (db : BillingDb) (inferred : InferredPlan) (s : Bool) :
    (updated_db_write env ev now db inferred s).billing.has_yearly_prepay = true →
    ∀ e : Nat, (updated_db_write env ev now db inferred s).billing.yearly_prepay_expires_at =
        some e →
      ¬ e ≤ ev.current_period_start := by
  obtain ⟨⟨f1, f2, f3, f4, f5, f6, f7, f8, f9, f10, f11, f12, f13, f14, f15, f16, f17, f18,
    f19, f20, f21⟩, ps, nid⟩ := db
  unfold updated_db_write
  simp only [apply_ite BillingDb.billing, create_billing_period_billing, ite_self]
  cases hdp : env.detect_pm.2 <;>
    cases f14 <;>
      cases f16 <;>
        simp only [hdp, Bool.false_eq_true, if_false, if_true] <;>
          (repeat' split) <;>
            (intro h e he hle) <;>
              (try simp_all) <;>
                omega

theorem updated_inference_replay (env : StripeEnv) (ev : SubscriptionEvent)
    (db : BillingDb) (billing2 : OrganizationBilling)
    (hren : ev.is_renewal = false)
    (hplan : billing2.billing_plan = (updated_inference env ev db.billing).plan) :
    updated_inference env ev billing2 =
      { plan := billing2.billing_plan, changed := false, should_clear_pending := false } := by
  have hitems : ∀ b : OrganizationBilling,
      updated_inference env ev b =
        infer_from_items
          { current_plan := b.billing_plan
            pending_plan := pending_to_apply_gate b ev.current_period_start
            is_renewal := ev.is_renewal
            items_changed := ev.items_changed
            subscription_items := ev.items }
          env.price_mapping := by
    intro b
    unfold updated_inference infer_plan_from_webhook
    cases pending_to_apply_gate b ev.current_period_start with
    | none => rfl
    | some p => simp only [hren, Bool.false_eq_true, if_false]
  rw [hitems]
  unfold infer_from_items
  cases hic : ev.items_changed with
  | false => simp
  | true =>
    simp only [if_true]
    cases hm : map_items_to_plan ev.items env.price_mapping with
    | none => simp
    | some q =>
      simp only []
      have hq : q = billing2.billing_plan := by
        rw [hplan, hitems]
        unfold infer_from_items
        rw [hic]
        simp only [if_true]
        rw [hm]
        by_cases hne : q = db.billing.billing_plan
        · simp [hne]
        · simp [hne]
      rw [if_neg]
      simp [hq]

set_option maxRecDepth 8000 in
set_option maxHeartbeats 1000000 in
theorem updated_db_write_noop (env : StripeEnv) (ev : SubscriptionEvent) (now : Nat)
    (db2 : BillingDb) (inf : InferredPlan)
    (hren : ev.is_renewal = false)
    (hinf : inf = { plan := db2.billing.billing_plan, changed := false,
                    should_clear_pending := false })
    (hst : db2.billing.billing_status = ev.status)
    (hca : db2.billing.cancel_at_period_end = ev.cancel_at_period_end)
    (hcs : db2.billing.current_period_start = some ev.current_period_start)
    (hce : db2.billing.current_period_end = some ev.current_period_end)
    (hpa : db2.billing.payment_method_added = env.detect_pm.1)
    (hpi : ∀ pid : String, env.detect_pm.2 = some pid →
        db2.billing.payment_method_id = some pid)
    (hyg : db2.billing.has_yearly_prepay = true →
        ∀ e : Nat, db2.billing.yearly_prepay_expires_at = some e →
          ¬ e ≤ ev.current_period_start) :
    updated_db_write env ev now db2 inf false = db2 := by
  obtain ⟨⟨f1, f2, f3, f4, f5, f6, f7, f8, f9, f10, f11, f12, f13, f14, f15, f16, f17, f18,
    f19, f20, f21⟩, ps, nid⟩ := db2
  simp only [] at hst hca hcs hce hpa hinf hpi hyg
  subst hst hca hcs hce hpa hinf
  unfold updated_db_write
  have hsw : switch_attempted ev ⟨f4, false, false⟩ = false := by
    simp [switch_attempted]
  simp only [hren, hsw, Bool.false_and, Bool.and_false, Bool.false_eq_true, if_false,
    Bool.false_or, should_create_new_period, ne_eq, decide_not, decide_eq_true_eq,
    not_true, Bool.not_true, Bool.and_self]
  cases hdp : env.detect_pm.2 with
  | none =>
    simp only [hdp]
    cases f14 with
    | false => rfl
    | true =>
      cases f16 with
      | none => rfl
      | some e =>
        rw [if_pos rfl]
        dsimp only
        rw [if_neg (hyg rfl e rfl)]
  | some pid =>
    have hf13 := hpi pid hdp
    subst hf13
    simp only [hdp]
    cases f14 with
    | false => rfl
    | true =>
      cases f16 with
      | none => rfl
      | some e =>
        rw [if_pos rfl]
        dsimp only
        rw [if_neg (hyg rfl e rfl)]

/-- Replaying a non-renewal subscription.updated event is idempotent: the
second application creates no period and rewrites the same record values. -/
theorem handle_updated_nonrenewal_replay (env : StripeEnv) (ev : SubscriptionEvent)
    (now : Nat) (db : BillingDb)
    (hren : ev.is_renewal = false) :
    handle_subscription_updated env ev now (handle_subscription_updated env ev now db) =
      handle_subscription_updated env ev now db := by
  by_cases hlk : db.billing.stripe_subscription_id = some ev.id
  · have hsw : switch_attempted ev (updated_inference env ev db.billing) = false := by
      simp [switch_attempted, hren]
    have h1 : handle_subscription_updated env ev now db =
        updated_db_write env ev now db (updated_inference env ev db.billing) false := by
      unfold handle_subscription_updated
      rw [if_pos hlk, hsw]
      simp only [Bool.false_eq_true, if_false]
    obtain ⟨Fsub, Fst, Fca, Fcs, Fce, Fpa, Fpp, Fppa, Fplan, Fpmid⟩ :=
      updated_db_write_nonrenewal_record env ev now db (updated_inference env ev db.billing)
        hren
    have hyg := updated_db_write_yearly_guard env ev now db
      (updated_inference env ev db.billing) false
    set r1 := updated_db_write env ev now db (updated_inference env ev db.billing) false
      with hr1def
    have hlk2 : r1.billing.stripe_subscription_id = some ev.id := by rw [Fsub]; exact hlk
    have hinf2 : updated_inference env ev r1.billing =
        { plan := r1.billing.billing_plan, changed := false,
          should_clear_pending := false } :=
      updated_inference_replay env ev db r1.billing hren Fplan
    have hsw2 : switch_attempted ev (updated_inference env ev r1.billing) = false := by
      simp [switch_attempted, hren]
    have h2 : handle_subscription_updated env ev now r1 =
        updated_db_write env ev now r1 (updated_inference env ev r1.billing) false := by
      unfold handle_subscription_updated
      rw [if_pos hlk2, hsw2]
      simp only [Bool.false_eq_true, if_false]
    have hnoop : updated_db_write env ev now r1 (updated_inference env ev r1.billing) false =
        r1 := by
      apply updated_db_write_noop env ev now r1 (updated_inference env ev r1.billing) hren
        hinf2 Fst Fca Fcs Fce Fpa
      · intro pid hp
        rw [Fpmid, hp]
      · exact hyg
    rw [h1, h2, hnoop]
  · have h0 : handle_subscription_updated env ev now db = db := by
      unfold handle_subscription_updated
      rw [if_neg hlk]
    rw [h0, h0]

/-- Concrete billing record used by the C6 counterexample. -/
def c6x_billing : OrganizationBilling :=
  { organization_id := "org6"
    stripe_customer_id := "cus6"
    stripe_subscription_id := some "sub6"
    billing_plan := .pro
    billing_status := .active
    current_period_start := some 0
    current_period_end := some 100
    cancel_at_period_end := false
    pending_plan_change := none
    pending_plan_change_at := none
    grace_period_ends_at := none
    payment_method_added := true
    payment_method_id := some "pm6"
    has_yearly_prepay := false
    yearly_prepay_started_at := none
    yearly_prepay_expires_at := none
    yearly_prepay_amount_cents := none
    yearly_prepay_coupon_id := none
    yearly_prepay_payment_intent_id := none
    last_payment_status := none
    last_payment_at := none }

/-- Concrete database used by the C6 counterexample. -/
def c6x_db : BillingDb :=
  { billing := c6x_billing
    periods := [{ id := 0, plan := .pro, period_start := 0, period_end := 100,
                  status := .active, transition := .initialSignup, previous_period_id := none,
                  stripe_subscription_id := some "sub6", stripe_invoice_id := none,
                  amount_cents := none, currency := none, paid_at := none }]
    next_period_id := 1 }

/-- Concrete plain renewal event used by the C6 counterexample. -/
def c6x_ev : SubscriptionEvent :=
  { id := "sub6", status := .active, current_period_start := 100, current_period_end := 200,
    cancel_at_period_end := false, is_renewal := true, items_changed := false, items := [] }

/-- Concrete environment used by the C6 counterexample. -/
def c6x_env : StripeEnv :=
  { price_mapping := []
    price_for_plan := fun _ => none
    update_outcome := none
    detect_pm := (true, some "pm6")
    sub_result := { id := "sub6", current_period_start := 100 }
    sub_detect_pm := (true, some "pm6") }



theorem infer_from_items_clear (c : PlanInferenceContext)
    (mapping : List (String × BillingPlan)) :
    (infer_from_items c mapping).should_clear_pending = false := by
  unfold infer_from_items
  cases hic : c.items_changed
  · simp
  · simp only [if_true]
    cases hm : map_items_to_plan c.subscription_items mapping
    · simp
    · dsimp only
      split <;> rfl

theorem updated_inference_gate_some (env : StripeEnv) (ev : SubscriptionEvent)
    (b : OrganizationBilling) (p : BillingPlan)
    (hren : ev.is_renewal = true)
    (hg : pending_to_apply_gate b ev.current_period_start = some p) :
    updated_inference env ev b = { plan := p, changed := true, should_clear_pending := true } := by
  unfold updated_inference infer_plan_from_webhook
  rw [hg]
  simp only [hren, if_true]

theorem updated_inference_clear_false_gate (env : StripeEnv) (ev : SubscriptionEvent)
    (b : OrganizationBilling)
    (hren : ev.is_renewal = true)
    (hclr : (updated_inference env ev b).should_clear_pending = false) :
    pending_to_apply_gate b ev.current_period_start = none := by
  cases hg : pending_to_apply_gate b ev.current_period_start with
  | none => rfl
  | some p =>
    rw [updated_inference_gate_some env ev b p hren hg] at hclr
    cases hclr

theorem updated_inference_replay_renewal (env : StripeEnv) (ev : SubscriptionEvent)
    (billing2 : OrganizationBilling)
    (hgate : pending_to_apply_gate billing2 ev.current_period_start = none)
    (hq : ∀ q : BillingPlan, ev.items_changed = true →
        map_items_to_plan ev.items env.price_mapping = some q → q = billing2.billing_plan) :
    updated_inference env ev billing2 =
      { plan := billing2.billing_plan, changed := false, should_clear_pending := false } := by
  unfold updated_inference infer_plan_from_webhook
  rw [hgate]
  unfold infer_from_items
  cases hic : ev.items_changed
  · simp
  · simp only [if_true]
    cases hm : map_items_to_plan ev.items env.price_mapping with
    | none => simp
    | some q =>
      dsimp only
      rw [if_neg]
      simp [hq q hic hm]

set_option maxRecDepth 8000 in
set_option maxHeartbeats 1000000 in
theorem updated_db_write_renewal_record (env : StripeEnv) (ev : SubscriptionEvent)
    (now : Nat) (db : BillingDb) (inferred : InferredPlan) (s : Bool)
    (hren : ev.is_renewal = true) :
    (updated_db_write env ev now db inferred s).billing.stripe_subscription_id =
        db.billing.stripe_subscription_id ∧
    (updated_db_write env ev now db inferred s).billing.billing_status = ev.status ∧
    (updated_db_write env ev now db inferred s).billing.cancel_at_period_end =
        ev.cancel_at_period_end ∧
    (updated_db_write env ev now db inferred s).billing.current_period_start =
        some ev.current_period_start ∧
    (updated_db_write env ev now db inferred s).billing.current_period_end =
        some ev.current_period_end ∧
    (updated_db_write env ev now db inferred s).billing.payment_method_added =
        env.detect_pm.1 ∧
    (updated_db_write env ev now db inferred s).billing.billing_plan = inferred.plan ∧
    (updated_db_write env ev now db inferred s).billing.payment_method_id =
      (match env.detect_pm.2 with
        | some pid => some pid
        | none => db.billing.payment_method_id) := by
  unfold updated_db_write
  simp only [apply_ite BillingDb.billing, create_billing_period_billing, ite_self]
  simp only [hren, Bool.true_or, if_true]
  cases hdp : env.detect_pm.2 <;>
    simp only [hdp] <;>
      (repeat' split) <;>
        exact ⟨rfl, rfl, rfl, rfl, rfl, rfl, rfl, rfl⟩

set_option maxRecDepth 8000 in
set_option maxHeartbeats 1000000 in
theorem updated_db_write_pending_cleared (env : StripeEnv) (ev : SubscriptionEvent)
    (now : Nat) (db : BillingDb) (inferred : InferredPlan) (s : Bool)
    (hren : ev.is_renewal = true)
    (hclr : inferred.should_clear_pending = true) :
    (updated_db_write env ev now db inferred s).billing.pending_plan_change = none ∧
    (updated_db_write env ev now db inferred s).billing.pending_plan_change_at = none := by
  unfold updated_db_write
  simp only [apply_ite BillingDb.billing, create_billing_period_billing, ite_self]
  simp only [hren, hclr, Bool.and_self, if_true]
  cases hdp : env.detect_pm.2 <;>
    simp only [hdp] <;>
      (repeat' split) <;>
        exact ⟨rfl, rfl⟩

set_option maxRecDepth 8000 in
set_option maxHeartbeats 1000000 in
theorem updated_db_write_pending_kept (env : StripeEnv) (ev : SubscriptionEvent)
    (now : Nat) (db : BillingDb) (inferred : InferredPlan) (s : Bool)
    (hclr : inferred.should_clear_pending = false) :
    (updated_db_write env ev now db inferred s).billing.pending_plan_change =
        db.billing.pending_plan_change ∧
    (updated_db_write env ev now db inferred s).billing.pending_plan_change_at =
        db.billing.pending_plan_change_at := by
  unfold updated_db_write
  simp only [apply_ite BillingDb.billing, create_billing_period_billing, ite_self]
  simp only [hclr, Bool.and_false, Bool.false_eq_true, if_false]
  cases hdp : env.detect_pm.2 <;>
    simp only [hdp] <;>
      (repeat' split) <;>
        exact ⟨rfl, rfl⟩

theorem period_target_exists_append_self (periods : List BillingPeriod)
    (p : BillingPeriod) (plan : BillingPlan) (ps pe : Nat) (sub_id : Option String)
    (status : BillingPeriodStatus)
    (hplan : p.plan = plan) (hps : p.period_start = ps) (hpe : p.period_end = pe)
    (hst : p.status = status) (hsub : p.stripe_subscription_id = sub_id) :
    period_target_exists (periods ++ [p]) plan ps pe sub_id status = true := by
  unfold period_target_exists
  rw [List.any_append]
  have : [p].any (fun q =>
      decide (q.plan = plan ∧ q.period_start = ps ∧ q.period_end = pe ∧ q.status = status ∧
        q.stripe_subscription_id = sub_id)) = true := by
    simp [hplan, hps, hpe, hst, hsub]
  rw [this, Bool.or_true]

theorem updated_db_write_shape (env : StripeEnv) (ev : SubscriptionEvent)
    (now : Nat) (db : BillingDb) (inferred : InferredPlan) (s : Bool)
    (hren : ev.is_renewal = true)
    (hsw_s : (switch_attempted ev inferred && !s) = false) :
    period_target_exists (updated_db_write env ev now db inferred s).periods inferred.plan
      ev.current_period_start ev.current_period_end (some ev.id) .active = true := by
  have hper : (updated_db_write env ev now db inferred s).periods =
      (create_billing_period db inferred.plan ev.current_period_start ev.current_period_end
        (determine_period_transition db.billing.billing_plan inferred.plan false) (some ev.id)
        (Option.map (fun p => p.id)
          (get_current_billing_period db.periods ev.current_period_start))
        .active).periods := by
    unfold updated_db_write
    simp only [hsw_s, Bool.false_eq_true, if_false, hren, if_true, should_create_new_period]
  rw [hper]
  unfold create_billing_period
  by_cases hchk : period_target_exists db.periods inferred.plan ev.current_period_start
      ev.current_period_end (some ev.id) .active = true
  · simp only [hchk, if_true]
  · simp only [hchk, if_false]
    exact period_target_exists_append_self _ _ _ _ _ _ _ rfl rfl rfl rfl rfl

set_option maxRecDepth 8000 in
set_option maxHeartbeats 1000000 in
theorem updated_db_write_renewal_noop (env : StripeEnv) (ev : SubscriptionEvent) (now : Nat)
    (db2 : BillingDb) (inf : InferredPlan)
    (hren : ev.is_renewal = true)
    (hinf : inf = { plan := db2.billing.billing_plan, changed := false,
                    should_clear_pending := false })
    (hst : db2.billing.billing_status = ev.status)
    (hca : db2.billing.cancel_at_period_end = ev.cancel_at_period_end)
    (hcs : db2.billing.current_period_start = some ev.current_period_start)
    (hce : db2.billing.current_period_end = some ev.current_period_end)
    (hpa : db2.billing.payment_method_added = env.detect_pm.1)
    (hpi : ∀ pid : String, env.detect_pm.2 = some pid →
        db2.billing.payment_method_id = some pid)
    (hshape : period_target_exists db2.periods db2.billing.billing_plan
        ev.current_period_start ev.current_period_end (some ev.id) .active = true)
    (hyg : db2.billing.has_yearly_prepay = true →
        ∀ e : Nat, db2.billing.yearly_prepay_expires_at = some e →
          ¬ e ≤ ev.current_period_start) :
    updated_db_write env ev now db2 inf false = db2 := by
  obtain ⟨⟨f1, f2, f3, f4, f5, f6, f7, f8, f9, f10, f11, f12, f13, f14, f15, f16, f17, f18,
    f19, f20, f21⟩, ps, nid⟩ := db2
  simp only [] at hst hca hcs hce hpa hinf hpi hyg hshape
  subst hst hca hcs hce hpa hinf
  unfold updated_db_write create_billing_period
  have hsw : switch_attempted ev ⟨f4, false, false⟩ = false := by
    simp [switch_attempted]
  simp only [hren, hsw, Bool.false_and, Bool.and_false, Bool.false_eq_true, if_false,
    if_true, should_create_new_period, hshape, ne_eq, decide_not, decide_eq_true_eq,
    not_true, Bool.not_true, Bool.and_self, Bool.true_or, Bool.or_false, Bool.false_or]
  cases hdp : env.detect_pm.2 with
  | none =>
    simp only [hdp]
    cases f14 with
    | false => rfl
    | true =>
      cases f16 with
      | none => rfl
      | some e =>
        rw [if_pos rfl]
        dsimp only
        rw [if_neg (hyg rfl e rfl)]
  | some pid =>
    have hf13 := hpi pid hdp
    subst hf13
    simp only [hdp]
    cases f14 with
    | false => rfl
    | true =>
      cases f16 with
      | none => rfl
      | some e =>
        rw [if_pos rfl]
        dsimp only
        rw [if_neg (hyg rfl e rfl)]

theorem handle_updated_failure_noop (env : StripeEnv) (ev : SubscriptionEvent) (now : Nat)
    (db : BillingDb) (pid msg : String)
    (hlk : db.billing.stripe_subscription_id = some ev.id)
    (hsw : switch_attempted ev (updated_inference env ev db.billing) = true)
    (hprice : env.price_for_plan (updated_inference env ev db.billing).plan = some pid)
    (hout : env.update_outcome = some msg)
    (hnc : is_test_clock_error msg = false) :
    handle_subscription_updated env ev now db = db := by
  unfold handle_subscription_updated
  rw [hlk, if_pos rfl, hsw, if_pos rfl, hprice, hout]
  simp only [hnc, Bool.false_eq_true, if_false]

theorem handle_updated_renewal_replay (env : StripeEnv) (ev : SubscriptionEvent) (now : Nat)
    (db : BillingDb) (s : Bool)
    (hlk : db.billing.stripe_subscription_id = some ev.id)
    (hren : ev.is_renewal = true)
    (hsw_s : (switch_attempted ev (updated_inference env ev db.billing) && !s) = false)
    (H2 : ∀ q : BillingPlan, ev.items_changed = true →
        map_items_to_plan ev.items env.price_mapping = some q →
        q = (updated_inference env ev db.billing).plan) :
    handle_subscription_updated env ev now
        (updated_db_write env ev now db (updated_inference env ev db.billing) s) =
      updated_db_write env ev now db (updated_inference env ev db.billing) s := by
  obtain ⟨Fsub, Fst, Fca, Fcs, Fce, Fpa, Fplan, Fpmid⟩ :=
    updated_db_write_renewal_record env ev now db (updated_inference env ev db.billing) s hren
  have hyg := updated_db_write_yearly_guard env ev now db
    (updated_inference env ev db.billing) s
  have hshape0 := updated_db_write_shape env ev now db
    (updated_inference env ev db.billing) s hren hsw_s
  set r1 := updated_db_write env ev now db (updated_inference env ev db.billing) s with hr1
  have hlk2 : r1.billing.stripe_subscription_id = some ev.id := by rw [Fsub]; exact hlk
  have hgate2 : pending_to_apply_gate r1.billing ev.current_period_start = none := by
    cases hc : (updated_inference env ev db.billing).should_clear_pending with
    | true =>
      obtain ⟨hp1, hp2⟩ :=
        updated_db_write_pending_cleared env ev now db (updated_inference env ev db.billing)
          s hren hc
      rw [← hr1] at hp1 hp2
      unfold pending_to_apply_gate
      rw [hp1]
    | false =>
      obtain ⟨hp1, hp2⟩ :=
        updated_db_write_pending_kept env ev now db (updated_inference env ev db.billing) s hc
      rw [← hr1] at hp1 hp2
      have hg1 : pending_to_apply_gate db.billing ev.current_period_start = none :=
        updated_inference_clear_false_gate env ev db.billing hren hc
      unfold pending_to_apply_gate at hg1 ⊢
      rw [hp1, hp2]
      exact hg1
  have hq2 : ∀ q : BillingPlan, ev.items_changed = true →
      map_items_to_plan ev.items env.price_mapping = some q →
      q = r1.billing.billing_plan := by
    intro q h1 h2
    rw [Fplan]
    exact H2 q h1 h2
  have hinf2 := updated_inference_replay_renewal env ev r1.billing hgate2 hq2
  have hsw2 : switch_attempted ev (updated_inference env ev r1.billing) = false := by
    rw [hinf2]
    simp [switch_attempted]
  have hred2 : handle_subscription_updated env ev now r1 =
      updated_db_write env ev now r1 (updated_inference env ev r1.billing) false := by
    unfold handle_subscription_updated
    rw [if_pos hlk2, hsw2]
    simp only [Bool.false_eq_true, if_false]
  rw [hred2]
  apply updated_db_write_renewal_noop env ev now r1 (updated_inference env ev r1.billing)
    hren hinf2 Fst Fca Fcs Fce Fpa
  · intro pid hp
    rw [Fpmid, hp]
  · rw [Fplan]
    exact hshape0
  · exact hyg

/-- C6 (amended): replaying the same subscription.updated event with an
identical payload is idempotent — no duplicate period and no record change —
provided the processor price lookup succeeds whenever the event triggers the
pending-change price switch, and any changed line items map to the plan that
inference reports for the first application. -/
theorem c6_replay_idempotent (env : StripeEnv) (ev : SubscriptionEvent) (now : Nat)
    (db : BillingDb)
    (H1 : switch_attempted ev (updated_inference env ev db.billing) = true →
        env.price_for_plan (updated_inference env ev db.billing).plan ≠ none)
    (H2 : ∀ q : BillingPlan, ev.items_changed = true →
        map_items_to_plan ev.items env.price_mapping = some q →
        q = (updated_inference env ev db.billing).plan) :
    handle_subscription_updated env ev now (handle_subscription_updated env ev now db) =
      handle_subscription_updated env ev now db := by
  by_cases hlk : db.billing.stripe_subscription_id = some ev.id
  · by_cases hrenb : ev.is_renewal = true
    · by_cases hswb : switch_attempted ev (updated_inference env ev db.billing) = true
      · have hparts := hswb
        simp only [switch_attempted, Bool.and_eq_true] at hparts
        obtain ⟨⟨-, hchg⟩, hclr⟩ := hparts
        rcases hpf : env.price_for_plan (updated_inference env ev db.billing).plan with _ | pid
        · exact absurd hpf (H1 hswb)
        · rcases hout : env.update_outcome with _ | msg
          · have hrun1 := handle_updated_eq_write_of_success env ev now db pid hlk hchg hclr
              hrenb hpf hout
            rw [hrun1]
            exact handle_updated_renewal_replay env ev now db true hlk hrenb (by simp) H2
          · by_cases htc : is_test_clock_error msg = true
            · have hrun1 := handle_updated_eq_write_of_testclock env ev now db msg pid hlk
                hchg hclr hrenb hpf hout htc
              rw [hrun1]
              exact handle_updated_renewal_replay env ev now db true hlk hrenb (by simp) H2
            · have hnc : is_test_clock_error msg = false := by
                cases h : is_test_clock_error msg
                · rfl
                · exact absurd h htc
              have h0 := handle_updated_failure_noop env ev now db pid msg hlk hswb hpf
                hout hnc
              rw [h0, h0]
      · have hsf : switch_attempted ev (updated_inference env ev db.billing) = false := by
          cases h : switch_attempted ev (updated_inference env ev db.billing)
          · rfl
          · exact absurd h hswb
        have hrun1 : handle_subscription_updated env ev now db =
            updated_db_write env ev now db (updated_inference env ev db.billing) false := by
          unfold handle_subscription_updated
          rw [if_pos hlk, hsf]
          simp only [Bool.false_eq_true, if_false]
        rw [hrun1]
        exact handle_updated_renewal_replay env ev now db false hlk hrenb
          (by rw [hsf]; rfl) H2
    · have hren : ev.is_renewal = false := by
        cases h : ev.is_renewal
        · rfl
        · exact absurd h hrenb
      exact handle_updated_nonrenewal_replay env ev now db hren
  · have h0 : handle_subscription_updated env ev now db = db := by
      unfold handle_subscription_updated
      rw [if_neg hlk]
    rw [h0, h0]

/-- Concrete billing record used by the C6 counterexample and witness: a due
pending change from Pro to Team. -/
def c6i_billing : OrganizationBilling :=
  { c6x_billing with
    pending_plan_change := some .team
    pending_plan_change_at := some 50 }

/-- Concrete database used by the C6 counterexample and witness. -/
def c6i_db : BillingDb := { c6x_db with billing := c6i_billing }

/-- Concrete renewal event used by the C6 counterexample: line items also
changed, to a price mapping to Enterprise. -/
def c6i_ev : SubscriptionEvent :=
  { id := "sub6", status := .active, current_period_start := 100, current_period_end := 200,
    cancel_at_period_end := false, is_renewal := true, items_changed := true,
    items := ["price_ent"] }

/-- Concrete environment used by the C6 counterexample. -/
def c6i_env : StripeEnv :=
  { price_mapping := [("price_ent", .enterprise)]
    price_for_plan := fun p => if p = .team then some "price_team" else none
    update_outcome := none
    detect_pm := (true, some "pm6")
    sub_result := { id := "sub6", current_period_start := 100 }
    sub_detect_pm := (true, some "pm6") }

/-- Concrete renewal event used by the price-none corner of the C6
counterexample: a plain renewal with unchanged items. -/
def c6p_ev : SubscriptionEvent :=
  { id := "sub6", status := .active, current_period_start := 100, current_period_end := 200,
    cancel_at_period_end := false, is_renewal := true, items_changed := false, items := [] }

/-- Concrete environment used by the price-none corner of the C6
counterexample: no price id is configured for any plan. -/
def c6p_env : StripeEnv :=
  { c6i_env with price_mapping := [], price_for_plan := fun _ => none }

/-- C6 counterexample: replaying an identical subscription.updated event is
not idempotent in general, even though createPeriod is an idempotent no-op on
an exact duplicate.  First input: a renewal applying a due pending change
(Pro to Team) whose payload also carries items mapping to Enterprise — the
replay re-runs inference without the pending plan, maps the items, and flips
the record and ledger to Enterprise.  Second input: the price lookup for the
pending plan is unavailable, so the first application books the period on the
old plan while stamping the record with the pending plan; the replay then
books a second, different period. -/
theorem c6_counterexample :
    (handle_subscription_updated c6i_env c6i_ev 100
        (handle_subscription_updated c6i_env c6i_ev 100 c6i_db) ≠
      handle_subscription_updated c6i_env c6i_ev 100 c6i_db) ∧
    (handle_subscription_updated c6p_env c6p_ev 100
        (handle_subscription_updated c6p_env c6p_ev 100 c6i_db) ≠
      handle_subscription_updated c6p_env c6p_ev 100 c6i_db) := by
  constructor
  · decide
  · decide

/-- Concrete renewal event used by the C6 witness: the due pending change is
applied cleanly (price available, items unchanged). -/
def c6w_ev : SubscriptionEvent :=
  { id := "sub6", status := .active, current_period_start := 100, current_period_end := 200,
    cancel_at_period_end := false, is_renewal := true, items_changed := false, items := [] }

/-- Witness for the amended C6 at a concrete input. -/
theorem c6_replay_idempotent_witness :
    handle_subscription_updated c6i_env c6w_ev 100
        (handle_subscription_updated c6i_env c6w_ev 100 c6i_db) =
      handle_subscription_updated c6i_env c6w_ev 100 c6i_db :=
  c6_replay_idempotent c6i_env c6w_ev 100 c6i_db
    (fun _ => by decide)
    (fun q hq hm => absurd hq (by decide))
